import Mathlib

/-!
Verification of `cardinal_pythonlib/text.py`.

Strings are embedded as `List Char` for the escape codec.  For the Unicode
range expander, Python strings may contain surrogate code points (which Lean's
`Char` excludes), so expanded category "strings" are embedded as `List Nat` of
code points.  Fallible Python code (`ValueError`, `KeyError`) is embedded with
`Except PyErr`.
-/

set_option maxHeartbeats 1000000
set_option maxRecDepth 100000

/-- The two kinds of exception raised by this module: `ValueError` (from
`int(x, 16)`, sequence unpacking, and `chr`) and `KeyError` (from dict
lookup). -/
inductive PyErr where
  | valueError : PyErr
  | keyError : PyErr
deriving DecidableEq, Repr
/-- Python `s.replace(old, new)` specialised to a single-character pattern
`old`, which is the only form used in `escape_newlines` and
`escape_tabs_newlines`: every occurrence of the character `old` is replaced by
the string `new`. -/
def pyReplace (old : Char) (new : List Char) : List Char → List Char
  | [] => []
  | c :: rest => (if c = old then new else [c]) ++ pyReplace old new rest
/-- `escape_newlines` from `text.py`: empty input is returned unchanged;
otherwise backslash is replaced by a double backslash, then LF by
backslash-n, then CR by backslash-r, in that order. -/
def escape_newlines (s : List Char) : List Char :=
  if s.isEmpty then s
  else
    pyReplace '\r' ['\\', 'r']
      (pyReplace '\n' ['\\', 'n']
        (pyReplace '\\' ['\\', '\\'] s))
/-- The character loop of `unescape_newlines`: the `Bool` argument is the
`in_escape` flag, the result is the destination string `d` built left to
right.  In escape state, `r` emits CR, `n` emits LF, anything else is emitted
verbatim; the flag is then cleared.  Outside escape state a backslash sets the
flag and emits nothing; any other character is copied. -/
def unescapeNewlinesLoop : Bool → List Char → List Char
  | _, [] => []
  | true, c :: rest =>
      (if c = 'r' then '\r' else if c = 'n' then '\n' else c)
        :: unescapeNewlinesLoop false rest
  | false, c :: rest =>
      if c = '\\' then unescapeNewlinesLoop true rest
      else c :: unescapeNewlinesLoop false rest
/-- `unescape_newlines` from `text.py`: empty input is returned unchanged,
otherwise the state-machine loop runs over the whole string starting outside
escape state. -/
def unescape_newlines (s : List Char) : List Char :=
  if s.isEmpty then s else unescapeNewlinesLoop false s
/-- `escape_tabs_newlines` from `text.py`: like `escape_newlines` but with a
final pass replacing TAB by backslash-t. -/
def escape_tabs_newlines (s : List Char) : List Char :=
  if s.isEmpty then s
  else
    pyReplace '\t' ['\\', 't']
      (pyReplace '\r' ['\\', 'r']
        (pyReplace '\n' ['\\', 'n']
          (pyReplace '\\' ['\\', '\\'] s)))
/-- The character loop of `unescape_tabs_newlines`: as for
`unescapeNewlinesLoop` with the extra escape-state case that `t` emits TAB. -/
def unescapeTabsNewlinesLoop : Bool → List Char → List Char
  | _, [] => []
  | true, c :: rest =>
      (if c = 'r' then '\r'
       else if c = 'n' then '\n'
       else if c = 't' then '\t'
       else c)
        :: unescapeTabsNewlinesLoop false rest
  | false, c :: rest =>
      if c = '\\' then unescapeTabsNewlinesLoop true rest
      else c :: unescapeTabsNewlinesLoop false rest
/-- `unescape_tabs_newlines` from `text.py`. -/
def unescape_tabs_newlines (s : List Char) : List Char :=
  if s.isEmpty then s else unescapeTabsNewlinesLoop false s
/-- The evolution of the `in_escape` flag over an input, identical for
`unescape_newlines` and `unescape_tabs_newlines`: in escape state any
character clears the flag; outside it, a backslash sets it. -/
def unescapeFinalState : Bool → List Char → Bool
  | b, [] => b
  | true, _ :: rest => unescapeFinalState false rest
  | false, c :: rest =>
      unescapeFinalState (if c = '\\' then true else false) rest
/-- What `escape_newlines` does to one character once the three replacement
passes are composed. -/
def escCharNL (c : Char) : List Char :=
  if c = '\\' then ['\\', '\\']
  else if c = '\n' then ['\\', 'n']
  else if c = '\r' then ['\\', 'r']
  else [c]
/-- What `escape_tabs_newlines` does to one character once the four
replacement passes are composed. -/
def escCharTNL (c : Char) : List Char :=
  if c = '\\' then ['\\', '\\']
  else if c = '\n' then ['\\', 'n']
  else if c = '\r' then ['\\', 'r']
  else if c = '\t' then ['\\', 't']
  else [c]
/-- Python `chr(n)` on the code points produced here: valid for
`0 ≤ n ≤ 0x10FFFF` (surrogates included), `ValueError` beyond.  The resulting
one-character string is embedded as its code point. -/
def pyChr (n : Nat) : Except PyErr Nat :=
  if n ≤ 0x10FFFF then .ok n else .error .valueError
/-- Python `s.split("-")`: cut at every hyphen, keeping empty pieces, so the
result always has one more piece than the string has hyphens. -/
def pySplitHyphen : List Char → List (List Char)
  | [] => [[]]
  | c :: rest =>
    if c = '-' then [] :: pySplitHyphen rest
    else
      match pySplitHyphen rest with
      | p :: ps => (c :: p) :: ps
      | [] => [[c]]
/-- The value of one hexadecimal digit, upper or lower case. -/
def hexDigitVal (c : Char) : Option Nat :=
  if '0' ≤ c ∧ c ≤ '9' then some (c.toNat - 48)
  else if 'a' ≤ c ∧ c ≤ 'f' then some (c.toNat - 87)
  else if 'A' ≤ c ∧ c ≤ 'F' then some (c.toNat - 55)
  else none
def parseHexAux (acc : Nat) : List Char → Option Nat
  | [] => some acc
  | c :: rest =>
    match hexDigitVal c with
    | some d => parseHexAux (16 * acc + d) rest
    | none => none
/-- Python `int(x, 16)` on the plain hex-digit strings this module feeds it:
a nonempty string of hexadecimal digits, `none` (ValueError) otherwise.
(Python's `int` also tolerates surrounding whitespace, a sign, underscores and
a 0x prefix; no such string occurs in the table or in the claims.) -/
def parseHex (s : List Char) : Option Nat :=
  match s with
  | [] => none
  | _ => parseHexAux 0 s
/-- The list comprehension `[int(x, 16) for x in src.split("-")]`: parses each
piece, failing at the first piece that is not hexadecimal. -/
def parseHexList : List (List Char) → Option (List Nat)
  | [] => some []
  | p :: ps =>
    match parseHex p with
    | some n =>
      match parseHexList ps with
      | some ns => some (n :: ns)
      | none => none
    | none => none
/-- The list comprehension `[chr(x) for x in range(first, last + 1)]` applied
to an explicit list of code points: `chr` each one, propagating the first
`ValueError`. -/
def chrList : List Nat → Except PyErr (List Nat)
  | [] => .ok []
  | n :: ns => do
    let c ← pyChr n
    let cs ← chrList ns
    .ok (c :: cs)
/-- `_unicode_def_src_to_str` from `text.py`.  An integer entry contributes
`chr` of itself; a string entry is split on hyphens, each piece parsed as hex
(`ValueError` if a piece fails), unpacked as exactly two values (`ValueError`
otherwise), and contributes the characters of `range(first, last + 1)` — which
is empty when `first > last`, exactly as Python's `range` is.  The pieces are
concatenated in list order. -/
def _unicode_def_src_to_str : List (Nat ⊕ String) → Except PyErr (List Nat)
  | [] => .ok []
  | .inl n :: rest => do
    let c ← pyChr n
    let t ← _unicode_def_src_to_str rest
    .ok (c :: t)
  | .inr s :: rest =>
    match parseHexList (pySplitHyphen s.data) with
    | some [first, last] => do
      let cs ← chrList (List.range' first (last + 1 - first))
      let t ← _unicode_def_src_to_str rest
      .ok (cs ++ t)
    | _ => .error .valueError
/-- The 'ASCII' entry of the `_UNICODE_CATEGORY_SRC` table in `text.py`. -/
def srcASCII : List (Nat ⊕ String) :=
  [Sum.inr "0000-007F"]
/-- Entries 0 to 59 of the 'Alphabetic' list in `text.py`. -/
def srcAlphabeticPart0 : List (Nat ⊕ String) :=
  [Sum.inr "0041-005A", Sum.inr "0061-007A", Sum.inl 0x00AA, Sum.inl 0x00B5, Sum.inl 0x00BA,
  Sum.inr "00C0-00D6", Sum.inr "00D8-00F6", Sum.inr "00F8-02C1", Sum.inr "02C6-02D1", Sum.inr
  "02E0-02E4", Sum.inl 0x02EC, Sum.inl 0x02EE, Sum.inl 0x0345, Sum.inr "0370-0374", Sum.inl
  0x0376, Sum.inl 0x0377, Sum.inr "037A-037D", Sum.inl 0x037F, Sum.inl 0x0386, Sum.inr
  "0388-038A", Sum.inl 0x038C, Sum.inr "038E-03A1", Sum.inr "03A3-03F5", Sum.inr "03F7-0481",
  Sum.inr "048A-052F", Sum.inr "0531-0556", Sum.inl 0x0559, Sum.inr "0561-0587", Sum.inr
  "05B0-05BD", Sum.inl 0x05BF, Sum.inl 0x05C1, Sum.inl 0x05C2, Sum.inl 0x05C4, Sum.inl 0x05C5,
  Sum.inl 0x05C7, Sum.inr "05D0-05EA", Sum.inr "05F0-05F2", Sum.inr "0610-061A", Sum.inr
  "0620-0657", Sum.inr "0659-065F", Sum.inr "066E-06D3", Sum.inr "06D5-06DC", Sum.inr
  "06E1-06E8", Sum.inr "06ED-06EF", Sum.inr "06FA-06FC", Sum.inl 0x06FF, Sum.inr "0710-073F",
  Sum.inr "074D-07B1", Sum.inr "07CA-07EA", Sum.inl 0x07F4, Sum.inl 0x07F5, Sum.inl 0x07FA,
  Sum.inr "0800-0817", Sum.inr "081A-082C", Sum.inr "0840-0858", Sum.inr "08A0-08B4", Sum.inr
  "08B6-08BD", Sum.inr "08D4-08DF", Sum.inr "08E3-08E9", Sum.inr "08F0-093B"]
/-- Entries 60 to 119 of the 'Alphabetic' list in `text.py`. -/
def srcAlphabeticPart1 : List (Nat ⊕ String) :=
  [Sum.inr "093D-094C", Sum.inr "094E-0950", Sum.inr "0955-0963", Sum.inr "0971-0983", Sum.inr
  "0985-098C", Sum.inl 0x098F, Sum.inl 0x0990, Sum.inr "0993-09A8", Sum.inr "09AA-09B0",
  Sum.inl 0x09B2, Sum.inr "09B6-09B9", Sum.inr "09BD-09C4", Sum.inl 0x09C7, Sum.inl 0x09C8,
  Sum.inl 0x09CB, Sum.inl 0x09CC, Sum.inl 0x09CE, Sum.inl 0x09D7, Sum.inl 0x09DC, Sum.inl
  0x09DD, Sum.inr "09DF-09E3", Sum.inl 0x09F0, Sum.inl 0x09F1, Sum.inr "0A01-0A03", Sum.inr
  "0A05-0A0A", Sum.inl 0x0A0F, Sum.inl 0x0A10, Sum.inr "0A13-0A28", Sum.inr "0A2A-0A30",
  Sum.inl 0x0A32, Sum.inl 0x0A33, Sum.inl 0x0A35, Sum.inl 0x0A36, Sum.inl 0x0A38, Sum.inl
  0x0A39, Sum.inr "0A3E-0A42", Sum.inl 0x0A47, Sum.inl 0x0A48, Sum.inl 0x0A4B, Sum.inl 0x0A4C,
  Sum.inl 0x0A51, Sum.inr "0A59-0A5C", Sum.inl 0x0A5E, Sum.inr "0A70-0A75", Sum.inr
  "0A81-0A83", Sum.inr "0A85-0A8D", Sum.inr "0A8F-0A91", Sum.inr "0A93-0AA8", Sum.inr
  "0AAA-0AB0", Sum.inl 0x0AB2, Sum.inl 0x0AB3, Sum.inr "0AB5-0AB9", Sum.inr "0ABD-0AC5",
  Sum.inr "0AC7-0AC9", Sum.inl 0x0ACB, Sum.inl 0x0ACC, Sum.inl 0x0AD0, Sum.inr "0AE0-0AE3",
  Sum.inl 0x0AF9, Sum.inr "0B01-0B03"]
/-- Entries 120 to 179 of the 'Alphabetic' list in `text.py`. -/
def srcAlphabeticPart2 : List (Nat ⊕ String) :=
  [Sum.inr "0B05-0B0C", Sum.inl 0x0B0F, Sum.inl 0x0B10, Sum.inr "0B13-0B28", Sum.inr
  "0B2A-0B30", Sum.inl 0x0B32, Sum.inl 0x0B33, Sum.inr "0B35-0B39", Sum.inr "0B3D-0B44",
  Sum.inl 0x0B47, Sum.inl 0x0B48, Sum.inl 0x0B4B, Sum.inl 0x0B4C, Sum.inl 0x0B56, Sum.inl
  0x0B57, Sum.inl 0x0B5C, Sum.inl 0x0B5D, Sum.inr "0B5F-0B63", Sum.inl 0x0B71, Sum.inl 0x0B82,
  Sum.inl 0x0B83, Sum.inr "0B85-0B8A", Sum.inr "0B8E-0B90", Sum.inr "0B92-0B95", Sum.inl
  0x0B99, Sum.inl 0x0B9A, Sum.inl 0x0B9C, Sum.inl 0x0B9E, Sum.inl 0x0B9F, Sum.inl 0x0BA3,
  Sum.inl 0x0BA4, Sum.inr "0BA8-0BAA", Sum.inr "0BAE-0BB9", Sum.inr "0BBE-0BC2", Sum.inr
  "0BC6-0BC8", Sum.inr "0BCA-0BCC", Sum.inl 0x0BD0, Sum.inl 0x0BD7, Sum.inr "0C00-0C03",
  Sum.inr "0C05-0C0C", Sum.inr "0C0E-0C10", Sum.inr "0C12-0C28", Sum.inr "0C2A-0C39", Sum.inr
  "0C3D-0C44", Sum.inr "0C46-0C48", Sum.inr "0C4A-0C4C", Sum.inl 0x0C55, Sum.inl 0x0C56,
  Sum.inr "0C58-0C5A", Sum.inr "0C60-0C63", Sum.inr "0C80-0C83", Sum.inr "0C85-0C8C", Sum.inr
  "0C8E-0C90", Sum.inr "0C92-0CA8", Sum.inr "0CAA-0CB3", Sum.inr "0CB5-0CB9", Sum.inr
  "0CBD-0CC4", Sum.inr "0CC6-0CC8", Sum.inr "0CCA-0CCC", Sum.inl 0x0CD5]
/-- Entries 180 to 239 of the 'Alphabetic' list in `text.py`. -/
def srcAlphabeticPart3 : List (Nat ⊕ String) :=
  [Sum.inl 0x0CD6, Sum.inl 0x0CDE, Sum.inr "0CE0-0CE3", Sum.inl 0x0CF1, Sum.inl 0x0CF2, Sum.inr
  "0D01-0D03", Sum.inr "0D05-0D0C", Sum.inr "0D0E-0D10", Sum.inr "0D12-0D3A", Sum.inr
  "0D3D-0D44", Sum.inr "0D46-0D48", Sum.inr "0D4A-0D4C", Sum.inl 0x0D4E, Sum.inr "0D54-0D57",
  Sum.inr "0D5F-0D63", Sum.inr "0D7A-0D7F", Sum.inl 0x0D82, Sum.inl 0x0D83, Sum.inr
  "0D85-0D96", Sum.inr "0D9A-0DB1", Sum.inr "0DB3-0DBB", Sum.inl 0x0DBD, Sum.inr "0DC0-0DC6",
  Sum.inr "0DCF-0DD4", Sum.inl 0x0DD6, Sum.inr "0DD8-0DDF", Sum.inl 0x0DF2, Sum.inl 0x0DF3,
  Sum.inr "0E01-0E3A", Sum.inr "0E40-0E46", Sum.inl 0x0E4D, Sum.inl 0x0E81, Sum.inl 0x0E82,
  Sum.inl 0x0E84, Sum.inl 0x0E87, Sum.inl 0x0E88, Sum.inl 0x0E8A, Sum.inl 0x0E8D, Sum.inr
  "0E94-0E97", Sum.inr "0E99-0E9F", Sum.inr "0EA1-0EA3", Sum.inl 0x0EA5, Sum.inl 0x0EA7,
  Sum.inl 0x0EAA, Sum.inl 0x0EAB, Sum.inr "0EAD-0EB9", Sum.inr "0EBB-0EBD", Sum.inr
  "0EC0-0EC4", Sum.inl 0x0EC6, Sum.inl 0x0ECD, Sum.inr "0EDC-0EDF", Sum.inl 0x0F00, Sum.inr
  "0F40-0F47", Sum.inr "0F49-0F6C", Sum.inr "0F71-0F81", Sum.inr "0F88-0F97", Sum.inr
  "0F99-0FBC", Sum.inr "1000-1036", Sum.inl 0x1038, Sum.inr "103B-103F"]
/-- Entries 240 to 299 of the 'Alphabetic' list in `text.py`. -/
def srcAlphabeticPart4 : List (Nat ⊕ String) :=
  [Sum.inr "1050-1062", Sum.inr "1065-1068", Sum.inr "106E-1086", Sum.inl 0x108E, Sum.inl
  0x109C, Sum.inl 0x109D, Sum.inr "10A0-10C5", Sum.inl 0x10C7, Sum.inl 0x10CD, Sum.inr
  "10D0-10FA", Sum.inr "10FC-1248", Sum.inr "124A-124D", Sum.inr "1250-1256", Sum.inl 0x1258,
  Sum.inr "125A-125D", Sum.inr "1260-1288", Sum.inr "128A-128D", Sum.inr "1290-12B0", Sum.inr
  "12B2-12B5", Sum.inr "12B8-12BE", Sum.inl 0x12C0, Sum.inr "12C2-12C5", Sum.inr "12C8-12D6",
  Sum.inr "12D8-1310", Sum.inr "1312-1315", Sum.inr "1318-135A", Sum.inl 0x135F, Sum.inr
  "1380-138F", Sum.inr "13A0-13F5", Sum.inr "13F8-13FD", Sum.inr "1401-166C", Sum.inr
  "166F-167F", Sum.inr "1681-169A", Sum.inr "16A0-16EA", Sum.inr "16EE-16F8", Sum.inr
  "1700-170C", Sum.inr "170E-1713", Sum.inr "1720-1733", Sum.inr "1740-1753", Sum.inr
  "1760-176C", Sum.inr "176E-1770", Sum.inl 0x1772, Sum.inl 0x1773, Sum.inr "1780-17B3",
  Sum.inr "17B6-17C8", Sum.inl 0x17D7, Sum.inl 0x17DC, Sum.inr "1820-1877", Sum.inr
  "1880-18AA", Sum.inr "18B0-18F5", Sum.inr "1900-191E", Sum.inr "1920-192B", Sum.inr
  "1930-1938", Sum.inr "1950-196D", Sum.inr "1970-1974", Sum.inr "1980-19AB", Sum.inr
  "19B0-19C9", Sum.inr "1A00-1A1B", Sum.inr "1A20-1A5E", Sum.inr "1A61-1A74"]
/-- Entries 300 to 359 of the 'Alphabetic' list in `text.py`. -/
def srcAlphabeticPart5 : List (Nat ⊕ String) :=
  [Sum.inl 0x1AA7, Sum.inr "1B00-1B33", Sum.inr "1B35-1B43", Sum.inr "1B45-1B4B", Sum.inr
  "1B80-1BA9", Sum.inr "1BAC-1BAF", Sum.inr "1BBA-1BE5", Sum.inr "1BE7-1BF1", Sum.inr
  "1C00-1C35", Sum.inr "1C4D-1C4F", Sum.inr "1C5A-1C7D", Sum.inr "1C80-1C88", Sum.inr
  "1CE9-1CEC", Sum.inr "1CEE-1CF3", Sum.inl 0x1CF5, Sum.inl 0x1CF6, Sum.inr "1D00-1DBF",
  Sum.inr "1DE7-1DF4", Sum.inr "1E00-1F15", Sum.inr "1F18-1F1D", Sum.inr "1F20-1F45", Sum.inr
  "1F48-1F4D", Sum.inr "1F50-1F57", Sum.inl 0x1F59, Sum.inl 0x1F5B, Sum.inl 0x1F5D, Sum.inr
  "1F5F-1F7D", Sum.inr "1F80-1FB4", Sum.inr "1FB6-1FBC", Sum.inl 0x1FBE, Sum.inr "1FC2-1FC4",
  Sum.inr "1FC6-1FCC", Sum.inr "1FD0-1FD3", Sum.inr "1FD6-1FDB", Sum.inr "1FE0-1FEC", Sum.inr
  "1FF2-1FF4", Sum.inr "1FF6-1FFC", Sum.inl 0x2071, Sum.inl 0x207F, Sum.inr "2090-209C",
  Sum.inl 0x2102, Sum.inl 0x2107, Sum.inr "210A-2113", Sum.inl 0x2115, Sum.inr "2119-211D",
  Sum.inl 0x2124, Sum.inl 0x2126, Sum.inl 0x2128, Sum.inr "212A-212D", Sum.inr "212F-2139",
  Sum.inr "213C-213F", Sum.inr "2145-2149", Sum.inl 0x214E, Sum.inr "2160-2188", Sum.inr
  "24B6-24E9", Sum.inr "2C00-2C2E", Sum.inr "2C30-2C5E", Sum.inr "2C60-2CE4", Sum.inr
  "2CEB-2CEE", Sum.inl 0x2CF2]
/-- Entries 360 to 419 of the 'Alphabetic' list in `text.py`. -/
def srcAlphabeticPart6 : List (Nat ⊕ String) :=
  [Sum.inl 0x2CF3, Sum.inr "2D00-2D25", Sum.inl 0x2D27, Sum.inl 0x2D2D, Sum.inr "2D30-2D67",
  Sum.inl 0x2D6F, Sum.inr "2D80-2D96", Sum.inr "2DA0-2DA6", Sum.inr "2DA8-2DAE", Sum.inr
  "2DB0-2DB6", Sum.inr "2DB8-2DBE", Sum.inr "2DC0-2DC6", Sum.inr "2DC8-2DCE", Sum.inr
  "2DD0-2DD6", Sum.inr "2DD8-2DDE", Sum.inr "2DE0-2DFF", Sum.inl 0x2E2F, Sum.inr "3005-3007",
  Sum.inr "3021-3029", Sum.inr "3031-3035", Sum.inr "3038-303C", Sum.inr "3041-3096", Sum.inr
  "309D-309F", Sum.inr "30A1-30FA", Sum.inr "30FC-30FF", Sum.inr "3105-312D", Sum.inr
  "3131-318E", Sum.inr "31A0-31BA", Sum.inr "31F0-31FF", Sum.inr "3400-4DB5", Sum.inr
  "4E00-9FD5", Sum.inr "A000-A48C", Sum.inr "A4D0-A4FD", Sum.inr "A500-A60C", Sum.inr
  "A610-A61F", Sum.inl 0xA62A, Sum.inl 0xA62B, Sum.inr "A640-A66E", Sum.inr "A674-A67B",
  Sum.inr "A67F-A6EF", Sum.inr "A717-A71F", Sum.inr "A722-A788", Sum.inr "A78B-A7AE", Sum.inr
  "A7B0-A7B7", Sum.inr "A7F7-A801", Sum.inr "A803-A805", Sum.inr "A807-A80A", Sum.inr
  "A80C-A827", Sum.inr "A840-A873", Sum.inr "A880-A8C3", Sum.inl 0xA8C5, Sum.inr "A8F2-A8F7",
  Sum.inl 0xA8FB, Sum.inl 0xA8FD, Sum.inr "A90A-A92A", Sum.inr "A930-A952", Sum.inr
  "A960-A97C", Sum.inr "A980-A9B2", Sum.inr "A9B4-A9BF", Sum.inl 0xA9CF]
/-- Entries 420 to 479 of the 'Alphabetic' list in `text.py`. -/
def srcAlphabeticPart7 : List (Nat ⊕ String) :=
  [Sum.inr "A9E0-A9E4", Sum.inr "A9E6-A9EF", Sum.inr "A9FA-A9FE", Sum.inr "AA00-AA36", Sum.inr
  "AA40-AA4D", Sum.inr "AA60-AA76", Sum.inl 0xAA7A, Sum.inr "AA7E-AABE", Sum.inl 0xAAC0,
  Sum.inl 0xAAC2, Sum.inr "AADB-AADD", Sum.inr "AAE0-AAEF", Sum.inr "AAF2-AAF5", Sum.inr
  "AB01-AB06", Sum.inr "AB09-AB0E", Sum.inr "AB11-AB16", Sum.inr "AB20-AB26", Sum.inr
  "AB28-AB2E", Sum.inr "AB30-AB5A", Sum.inr "AB5C-AB65", Sum.inr "AB70-ABEA", Sum.inr
  "AC00-D7A3", Sum.inr "D7B0-D7C6", Sum.inr "D7CB-D7FB", Sum.inr "F900-FA6D", Sum.inr
  "FA70-FAD9", Sum.inr "FB00-FB06", Sum.inr "FB13-FB17", Sum.inr "FB1D-FB28", Sum.inr
  "FB2A-FB36", Sum.inr "FB38-FB3C", Sum.inl 0xFB3E, Sum.inl 0xFB40, Sum.inl 0xFB41, Sum.inl
  0xFB43, Sum.inl 0xFB44, Sum.inr "FB46-FBB1", Sum.inr "FBD3-FD3D", Sum.inr "FD50-FD8F",
  Sum.inr "FD92-FDC7", Sum.inr "FDF0-FDFB", Sum.inr "FE70-FE74", Sum.inr "FE76-FEFC", Sum.inr
  "FF21-FF3A", Sum.inr "FF41-FF5A", Sum.inr "FF66-FFBE", Sum.inr "FFC2-FFC7", Sum.inr
  "FFCA-FFCF", Sum.inr "FFD2-FFD7", Sum.inr "FFDA-FFDC", Sum.inr "10000-1000B", Sum.inr
  "1000D-10026", Sum.inr "10028-1003A", Sum.inl 0x1003C, Sum.inl 0x1003D, Sum.inr
  "1003F-1004D", Sum.inr "10050-1005D", Sum.inr "10080-100FA", Sum.inr "10140-10174", Sum.inr
  "10280-1029C"]
/-- Entries 480 to 539 of the 'Alphabetic' list in `text.py`. -/
def srcAlphabeticPart8 : List (Nat ⊕ String) :=
  [Sum.inr "102A0-102D0", Sum.inr "10300-1031F", Sum.inr "10330-1034A", Sum.inr "10350-1037A",
  Sum.inr "10380-1039D", Sum.inr "103A0-103C3", Sum.inr "103C8-103CF", Sum.inr "103D1-103D5",
  Sum.inr "10400-1049D", Sum.inr "104B0-104D3", Sum.inr "104D8-104FB", Sum.inr "10500-10527",
  Sum.inr "10530-10563", Sum.inr "10600-10736", Sum.inr "10740-10755", Sum.inr "10760-10767",
  Sum.inr "10800-10805", Sum.inl 0x10808, Sum.inr "1080A-10835", Sum.inl 0x10837, Sum.inl
  0x10838, Sum.inl 0x1083C, Sum.inr "1083F-10855", Sum.inr "10860-10876", Sum.inr
  "10880-1089E", Sum.inr "108E0-108F2", Sum.inl 0x108F4, Sum.inl 0x108F5, Sum.inr
  "10900-10915", Sum.inr "10920-10939", Sum.inr "10980-109B7", Sum.inl 0x109BE, Sum.inl
  0x109BF, Sum.inr "10A00-10A03", Sum.inl 0x10A05, Sum.inl 0x10A06, Sum.inr "10A0C-10A13",
  Sum.inr "10A15-10A17", Sum.inr "10A19-10A33", Sum.inr "10A60-10A7C", Sum.inr "10A80-10A9C",
  Sum.inr "10AC0-10AC7", Sum.inr "10AC9-10AE4", Sum.inr "10B00-10B35", Sum.inr "10B40-10B55",
  Sum.inr "10B60-10B72", Sum.inr "10B80-10B91", Sum.inr "10C00-10C48", Sum.inr "10C80-10CB2",
  Sum.inr "10CC0-10CF2", Sum.inr "11000-11045", Sum.inr "11082-110B8", Sum.inr "110D0-110E8",
  Sum.inr "11100-11132", Sum.inr "11150-11172", Sum.inl 0x11176, Sum.inr "11180-111BF",
  Sum.inr "111C1-111C4", Sum.inl 0x111DA, Sum.inl 0x111DC]
/-- Entries 540 to 599 of the 'Alphabetic' list in `text.py`. -/
def srcAlphabeticPart9 : List (Nat ⊕ String) :=
  [Sum.inr "11200-11211", Sum.inr "11213-11234", Sum.inl 0x11237, Sum.inl 0x1123E, Sum.inr
  "11280-11286", Sum.inl 0x11288, Sum.inr "1128A-1128D", Sum.inr "1128F-1129D", Sum.inr
  "1129F-112A8", Sum.inr "112B0-112E8", Sum.inr "11300-11303", Sum.inr "11305-1130C", Sum.inl
  0x1130F, Sum.inl 0x11310, Sum.inr "11313-11328", Sum.inr "1132A-11330", Sum.inl 0x11332,
  Sum.inl 0x11333, Sum.inr "11335-11339", Sum.inr "1133D-11344", Sum.inl 0x11347, Sum.inl
  0x11348, Sum.inl 0x1134B, Sum.inl 0x1134C, Sum.inl 0x11350, Sum.inl 0x11357, Sum.inr
  "1135D-11363", Sum.inr "11400-11441", Sum.inr "11443-11445", Sum.inr "11447-1144A", Sum.inr
  "11480-114C1", Sum.inl 0x114C4, Sum.inl 0x114C5, Sum.inl 0x114C7, Sum.inr "11580-115B5",
  Sum.inr "115B8-115BE", Sum.inr "115D8-115DD", Sum.inr "11600-1163E", Sum.inl 0x11640,
  Sum.inl 0x11644, Sum.inr "11680-116B5", Sum.inr "11700-11719", Sum.inr "1171D-1172A",
  Sum.inr "118A0-118DF", Sum.inl 0x118FF, Sum.inr "11AC0-11AF8", Sum.inr "11C00-11C08",
  Sum.inr "11C0A-11C36", Sum.inr "11C38-11C3E", Sum.inl 0x11C40, Sum.inr "11C72-11C8F",
  Sum.inr "11C92-11CA7", Sum.inr "11CA9-11CB6", Sum.inr "12000-12399", Sum.inr "12400-1246E",
  Sum.inr "12480-12543", Sum.inr "13000-1342E", Sum.inr "14400-14646", Sum.inr "16800-16A38",
  Sum.inr "16A40-16A5E"]
/-- Entries 600 to 659 of the 'Alphabetic' list in `text.py`. -/
def srcAlphabeticPart10 : List (Nat ⊕ String) :=
  [Sum.inr "16AD0-16AED", Sum.inr "16B00-16B36", Sum.inr "16B40-16B43", Sum.inr "16B63-16B77",
  Sum.inr "16B7D-16B8F", Sum.inr "16F00-16F44", Sum.inr "16F50-16F7E", Sum.inr "16F93-16F9F",
  Sum.inl 0x16FE0, Sum.inr "17000-187EC", Sum.inr "18800-18AF2", Sum.inl 0x1B000, Sum.inl
  0x1B001, Sum.inr "1BC00-1BC6A", Sum.inr "1BC70-1BC7C", Sum.inr "1BC80-1BC88", Sum.inr
  "1BC90-1BC99", Sum.inl 0x1BC9E, Sum.inr "1D400-1D454", Sum.inr "1D456-1D49C", Sum.inl
  0x1D49E, Sum.inl 0x1D49F, Sum.inl 0x1D4A2, Sum.inl 0x1D4A5, Sum.inl 0x1D4A6, Sum.inr
  "1D4A9-1D4AC", Sum.inr "1D4AE-1D4B9", Sum.inl 0x1D4BB, Sum.inr "1D4BD-1D4C3", Sum.inr
  "1D4C5-1D505", Sum.inr "1D507-1D50A", Sum.inr "1D50D-1D514", Sum.inr "1D516-1D51C", Sum.inr
  "1D51E-1D539", Sum.inr "1D53B-1D53E", Sum.inr "1D540-1D544", Sum.inl 0x1D546, Sum.inr
  "1D54A-1D550", Sum.inr "1D552-1D6A5", Sum.inr "1D6A8-1D6C0", Sum.inr "1D6C2-1D6DA", Sum.inr
  "1D6DC-1D6FA", Sum.inr "1D6FC-1D714", Sum.inr "1D716-1D734", Sum.inr "1D736-1D74E", Sum.inr
  "1D750-1D76E", Sum.inr "1D770-1D788", Sum.inr "1D78A-1D7A8", Sum.inr "1D7AA-1D7C2", Sum.inr
  "1D7C4-1D7CB", Sum.inr "1E000-1E006", Sum.inr "1E008-1E018", Sum.inr "1E01B-1E021", Sum.inl
  0x1E023, Sum.inl 0x1E024, Sum.inr "1E026-1E02A", Sum.inr "1E800-1E8C4", Sum.inr
  "1E900-1E943", Sum.inl 0x1E947, Sum.inr "1EE00-1EE03"]
/-- Entries 660 to 702 of the 'Alphabetic' list in `text.py`. -/
def srcAlphabeticPart11 : List (Nat ⊕ String) :=
  [Sum.inr "1EE05-1EE1F", Sum.inl 0x1EE21, Sum.inl 0x1EE22, Sum.inl 0x1EE24, Sum.inl 0x1EE27,
  Sum.inr "1EE29-1EE32", Sum.inr "1EE34-1EE37", Sum.inl 0x1EE39, Sum.inl 0x1EE3B, Sum.inl
  0x1EE42, Sum.inl 0x1EE47, Sum.inl 0x1EE49, Sum.inl 0x1EE4B, Sum.inr "1EE4D-1EE4F", Sum.inl
  0x1EE51, Sum.inl 0x1EE52, Sum.inl 0x1EE54, Sum.inl 0x1EE57, Sum.inl 0x1EE59, Sum.inl
  0x1EE5B, Sum.inl 0x1EE5D, Sum.inl 0x1EE5F, Sum.inl 0x1EE61, Sum.inl 0x1EE62, Sum.inl
  0x1EE64, Sum.inr "1EE67-1EE6A", Sum.inr "1EE6C-1EE72", Sum.inr "1EE74-1EE77", Sum.inr
  "1EE79-1EE7C", Sum.inl 0x1EE7E, Sum.inr "1EE80-1EE89", Sum.inr "1EE8B-1EE9B", Sum.inr
  "1EEA1-1EEA3", Sum.inr "1EEA5-1EEA9", Sum.inr "1EEAB-1EEBB", Sum.inr "1F130-1F149", Sum.inr
  "1F150-1F169", Sum.inr "1F170-1F189", Sum.inr "20000-2A6D6", Sum.inr "2A700-2B734", Sum.inr
  "2B740-2B81D", Sum.inr "2B820-2CEA1", Sum.inr "2F800-2FA1D"]
/-- The 'Alphabetic' entry of the `_UNICODE_CATEGORY_SRC` table in `text.py`,
in pieces purely to keep each list literal small. -/
def srcAlphabetic : List (Nat ⊕ String) :=
  srcAlphabeticPart0 ++ srcAlphabeticPart1 ++ srcAlphabeticPart2 ++ srcAlphabeticPart3 ++ srcAlphabeticPart4 ++ srcAlphabeticPart5 ++ srcAlphabeticPart6 ++ srcAlphabeticPart7 ++ srcAlphabeticPart8 ++ srcAlphabeticPart9 ++ srcAlphabeticPart10 ++ srcAlphabeticPart11
/-- The 'Any' entry of the `_UNICODE_CATEGORY_SRC` table in `text.py`. -/
def srcAny : List (Nat ⊕ String) :=
  [Sum.inr "0000-10FFFF"]
/-- The 'Default_Ignorable_Code_Point' entry of the `_UNICODE_CATEGORY_SRC` table in `text.py`. -/
def srcDefault_Ignorable_Code_Point : List (Nat ⊕ String) :=
  [Sum.inl 0x00AD, Sum.inl 0x034F, Sum.inl 0x061C, Sum.inl 0x115F, Sum.inl 0x1160, Sum.inl
  0x17B4, Sum.inl 0x17B5, Sum.inr "180B-180E", Sum.inr "200B-200F", Sum.inr "202A-202E",
  Sum.inr "2060-206F", Sum.inl 0x3164, Sum.inr "FE00-FE0F", Sum.inl 0xFEFF, Sum.inl 0xFFA0,
  Sum.inr "FFF0-FFF8", Sum.inr "1BCA0-1BCA3", Sum.inr "1D173-1D17A", Sum.inr "E0000-E0FFF"]
/-- Entries 0 to 59 of the 'Lowercase' list in `text.py`. -/
def srcLowercasePart0 : List (Nat ⊕ String) :=
  [Sum.inr "0061-007A", Sum.inl 0x00AA, Sum.inl 0x00B5, Sum.inl 0x00BA, Sum.inr "00DF-00F6",
  Sum.inr "00F8-00FF", Sum.inl 0x0101, Sum.inl 0x0103, Sum.inl 0x0105, Sum.inl 0x0107, Sum.inl
  0x0109, Sum.inl 0x010B, Sum.inl 0x010D, Sum.inl 0x010F, Sum.inl 0x0111, Sum.inl 0x0113,
  Sum.inl 0x0115, Sum.inl 0x0117, Sum.inl 0x0119, Sum.inl 0x011B, Sum.inl 0x011D, Sum.inl
  0x011F, Sum.inl 0x0121, Sum.inl 0x0123, Sum.inl 0x0125, Sum.inl 0x0127, Sum.inl 0x0129,
  Sum.inl 0x012B, Sum.inl 0x012D, Sum.inl 0x012F, Sum.inl 0x0131, Sum.inl 0x0133, Sum.inl
  0x0135, Sum.inl 0x0137, Sum.inl 0x0138, Sum.inl 0x013A, Sum.inl 0x013C, Sum.inl 0x013E,
  Sum.inl 0x0140, Sum.inl 0x0142, Sum.inl 0x0144, Sum.inl 0x0146, Sum.inl 0x0148, Sum.inl
  0x0149, Sum.inl 0x014B, Sum.inl 0x014D, Sum.inl 0x014F, Sum.inl 0x0151, Sum.inl 0x0153,
  Sum.inl 0x0155, Sum.inl 0x0157, Sum.inl 0x0159, Sum.inl 0x015B, Sum.inl 0x015D, Sum.inl
  0x015F, Sum.inl 0x0161, Sum.inl 0x0163, Sum.inl 0x0165, Sum.inl 0x0167, Sum.inl 0x0169]
/-- Entries 60 to 119 of the 'Lowercase' list in `text.py`. -/
def srcLowercasePart1 : List (Nat ⊕ String) :=
  [Sum.inl 0x016B, Sum.inl 0x016D, Sum.inl 0x016F, Sum.inl 0x0171, Sum.inl 0x0173, Sum.inl
  0x0175, Sum.inl 0x0177, Sum.inl 0x017A, Sum.inl 0x017C, Sum.inr "017E-0180", Sum.inl 0x0183,
  Sum.inl 0x0185, Sum.inl 0x0188, Sum.inl 0x018C, Sum.inl 0x018D, Sum.inl 0x0192, Sum.inl
  0x0195, Sum.inr "0199-019B", Sum.inl 0x019E, Sum.inl 0x01A1, Sum.inl 0x01A3, Sum.inl 0x01A5,
  Sum.inl 0x01A8, Sum.inl 0x01AA, Sum.inl 0x01AB, Sum.inl 0x01AD, Sum.inl 0x01B0, Sum.inl
  0x01B4, Sum.inl 0x01B6, Sum.inl 0x01B9, Sum.inl 0x01BA, Sum.inr "01BD-01BF", Sum.inl 0x01C6,
  Sum.inl 0x01C9, Sum.inl 0x01CC, Sum.inl 0x01CE, Sum.inl 0x01D0, Sum.inl 0x01D2, Sum.inl
  0x01D4, Sum.inl 0x01D6, Sum.inl 0x01D8, Sum.inl 0x01DA, Sum.inl 0x01DC, Sum.inl 0x01DD,
  Sum.inl 0x01DF, Sum.inl 0x01E1, Sum.inl 0x01E3, Sum.inl 0x01E5, Sum.inl 0x01E7, Sum.inl
  0x01E9, Sum.inl 0x01EB, Sum.inl 0x01ED, Sum.inl 0x01EF, Sum.inl 0x01F0, Sum.inl 0x01F3,
  Sum.inl 0x01F5, Sum.inl 0x01F9, Sum.inl 0x01FB, Sum.inl 0x01FD, Sum.inl 0x01FF]
/-- Entries 120 to 179 of the 'Lowercase' list in `text.py`. -/
def srcLowercasePart2 : List (Nat ⊕ String) :=
  [Sum.inl 0x0201, Sum.inl 0x0203, Sum.inl 0x0205, Sum.inl 0x0207, Sum.inl 0x0209, Sum.inl
  0x020B, Sum.inl 0x020D, Sum.inl 0x020F, Sum.inl 0x0211, Sum.inl 0x0213, Sum.inl 0x0215,
  Sum.inl 0x0217, Sum.inl 0x0219, Sum.inl 0x021B, Sum.inl 0x021D, Sum.inl 0x021F, Sum.inl
  0x0221, Sum.inl 0x0223, Sum.inl 0x0225, Sum.inl 0x0227, Sum.inl 0x0229, Sum.inl 0x022B,
  Sum.inl 0x022D, Sum.inl 0x022F, Sum.inl 0x0231, Sum.inr "0233-0239", Sum.inl 0x023C, Sum.inl
  0x023F, Sum.inl 0x0240, Sum.inl 0x0242, Sum.inl 0x0247, Sum.inl 0x0249, Sum.inl 0x024B,
  Sum.inl 0x024D, Sum.inr "024F-0293", Sum.inr "0295-02B8", Sum.inl 0x02C0, Sum.inl 0x02C1,
  Sum.inr "02E0-02E4", Sum.inl 0x0345, Sum.inl 0x0371, Sum.inl 0x0373, Sum.inl 0x0377, Sum.inr
  "037A-037D", Sum.inl 0x0390, Sum.inr "03AC-03CE", Sum.inl 0x03D0, Sum.inl 0x03D1, Sum.inr
  "03D5-03D7", Sum.inl 0x03D9, Sum.inl 0x03DB, Sum.inl 0x03DD, Sum.inl 0x03DF, Sum.inl 0x03E1,
  Sum.inl 0x03E3, Sum.inl 0x03E5, Sum.inl 0x03E7, Sum.inl 0x03E9, Sum.inl 0x03EB, Sum.inl
  0x03ED]
/-- Entries 180 to 239 of the 'Lowercase' list in `text.py`. -/
def srcLowercasePart3 : List (Nat ⊕ String) :=
  [Sum.inr "03EF-03F3", Sum.inl 0x03F5, Sum.inl 0x03F8, Sum.inl 0x03FB, Sum.inl 0x03FC, Sum.inr
  "0430-045F", Sum.inl 0x0461, Sum.inl 0x0463, Sum.inl 0x0465, Sum.inl 0x0467, Sum.inl 0x0469,
  Sum.inl 0x046B, Sum.inl 0x046D, Sum.inl 0x046F, Sum.inl 0x0471, Sum.inl 0x0473, Sum.inl
  0x0475, Sum.inl 0x0477, Sum.inl 0x0479, Sum.inl 0x047B, Sum.inl 0x047D, Sum.inl 0x047F,
  Sum.inl 0x0481, Sum.inl 0x048B, Sum.inl 0x048D, Sum.inl 0x048F, Sum.inl 0x0491, Sum.inl
  0x0493, Sum.inl 0x0495, Sum.inl 0x0497, Sum.inl 0x0499, Sum.inl 0x049B, Sum.inl 0x049D,
  Sum.inl 0x049F, Sum.inl 0x04A1, Sum.inl 0x04A3, Sum.inl 0x04A5, Sum.inl 0x04A7, Sum.inl
  0x04A9, Sum.inl 0x04AB, Sum.inl 0x04AD, Sum.inl 0x04AF, Sum.inl 0x04B1, Sum.inl 0x04B3,
  Sum.inl 0x04B5, Sum.inl 0x04B7, Sum.inl 0x04B9, Sum.inl 0x04BB, Sum.inl 0x04BD, Sum.inl
  0x04BF, Sum.inl 0x04C2, Sum.inl 0x04C4, Sum.inl 0x04C6, Sum.inl 0x04C8, Sum.inl 0x04CA,
  Sum.inl 0x04CC, Sum.inl 0x04CE, Sum.inl 0x04CF, Sum.inl 0x04D1, Sum.inl 0x04D3]
/-- Entries 240 to 299 of the 'Lowercase' list in `text.py`. -/
def srcLowercasePart4 : List (Nat ⊕ String) :=
  [Sum.inl 0x04D5, Sum.inl 0x04D7, Sum.inl 0x04D9, Sum.inl 0x04DB, Sum.inl 0x04DD, Sum.inl
  0x04DF, Sum.inl 0x04E1, Sum.inl 0x04E3, Sum.inl 0x04E5, Sum.inl 0x04E7, Sum.inl 0x04E9,
  Sum.inl 0x04EB, Sum.inl 0x04ED, Sum.inl 0x04EF, Sum.inl 0x04F1, Sum.inl 0x04F3, Sum.inl
  0x04F5, Sum.inl 0x04F7, Sum.inl 0x04F9, Sum.inl 0x04FB, Sum.inl 0x04FD, Sum.inl 0x04FF,
  Sum.inl 0x0501, Sum.inl 0x0503, Sum.inl 0x0505, Sum.inl 0x0507, Sum.inl 0x0509, Sum.inl
  0x050B, Sum.inl 0x050D, Sum.inl 0x050F, Sum.inl 0x0511, Sum.inl 0x0513, Sum.inl 0x0515,
  Sum.inl 0x0517, Sum.inl 0x0519, Sum.inl 0x051B, Sum.inl 0x051D, Sum.inl 0x051F, Sum.inl
  0x0521, Sum.inl 0x0523, Sum.inl 0x0525, Sum.inl 0x0527, Sum.inl 0x0529, Sum.inl 0x052B,
  Sum.inl 0x052D, Sum.inl 0x052F, Sum.inr "0561-0587", Sum.inr "13F8-13FD", Sum.inr
  "1C80-1C88", Sum.inr "1D00-1DBF", Sum.inl 0x1E01, Sum.inl 0x1E03, Sum.inl 0x1E05, Sum.inl
  0x1E07, Sum.inl 0x1E09, Sum.inl 0x1E0B, Sum.inl 0x1E0D, Sum.inl 0x1E0F, Sum.inl 0x1E11,
  Sum.inl 0x1E13]
/-- Entries 300 to 359 of the 'Lowercase' list in `text.py`. -/
def srcLowercasePart5 : List (Nat ⊕ String) :=
  [Sum.inl 0x1E15, Sum.inl 0x1E17, Sum.inl 0x1E19, Sum.inl 0x1E1B, Sum.inl 0x1E1D, Sum.inl
  0x1E1F, Sum.inl 0x1E21, Sum.inl 0x1E23, Sum.inl 0x1E25, Sum.inl 0x1E27, Sum.inl 0x1E29,
  Sum.inl 0x1E2B, Sum.inl 0x1E2D, Sum.inl 0x1E2F, Sum.inl 0x1E31, Sum.inl 0x1E33, Sum.inl
  0x1E35, Sum.inl 0x1E37, Sum.inl 0x1E39, Sum.inl 0x1E3B, Sum.inl 0x1E3D, Sum.inl 0x1E3F,
  Sum.inl 0x1E41, Sum.inl 0x1E43, Sum.inl 0x1E45, Sum.inl 0x1E47, Sum.inl 0x1E49, Sum.inl
  0x1E4B, Sum.inl 0x1E4D, Sum.inl 0x1E4F, Sum.inl 0x1E51, Sum.inl 0x1E53, Sum.inl 0x1E55,
  Sum.inl 0x1E57, Sum.inl 0x1E59, Sum.inl 0x1E5B, Sum.inl 0x1E5D, Sum.inl 0x1E5F, Sum.inl
  0x1E61, Sum.inl 0x1E63, Sum.inl 0x1E65, Sum.inl 0x1E67, Sum.inl 0x1E69, Sum.inl 0x1E6B,
  Sum.inl 0x1E6D, Sum.inl 0x1E6F, Sum.inl 0x1E71, Sum.inl 0x1E73, Sum.inl 0x1E75, Sum.inl
  0x1E77, Sum.inl 0x1E79, Sum.inl 0x1E7B, Sum.inl 0x1E7D, Sum.inl 0x1E7F, Sum.inl 0x1E81,
  Sum.inl 0x1E83, Sum.inl 0x1E85, Sum.inl 0x1E87, Sum.inl 0x1E89, Sum.inl 0x1E8B]
/-- Entries 360 to 419 of the 'Lowercase' list in `text.py`. -/
def srcLowercasePart6 : List (Nat ⊕ String) :=
  [Sum.inl 0x1E8D, Sum.inl 0x1E8F, Sum.inl 0x1E91, Sum.inl 0x1E93, Sum.inr "1E95-1E9D", Sum.inl
  0x1E9F, Sum.inl 0x1EA1, Sum.inl 0x1EA3, Sum.inl 0x1EA5, Sum.inl 0x1EA7, Sum.inl 0x1EA9,
  Sum.inl 0x1EAB, Sum.inl 0x1EAD, Sum.inl 0x1EAF, Sum.inl 0x1EB1, Sum.inl 0x1EB3, Sum.inl
  0x1EB5, Sum.inl 0x1EB7, Sum.inl 0x1EB9, Sum.inl 0x1EBB, Sum.inl 0x1EBD, Sum.inl 0x1EBF,
  Sum.inl 0x1EC1, Sum.inl 0x1EC3, Sum.inl 0x1EC5, Sum.inl 0x1EC7, Sum.inl 0x1EC9, Sum.inl
  0x1ECB, Sum.inl 0x1ECD, Sum.inl 0x1ECF, Sum.inl 0x1ED1, Sum.inl 0x1ED3, Sum.inl 0x1ED5,
  Sum.inl 0x1ED7, Sum.inl 0x1ED9, Sum.inl 0x1EDB, Sum.inl 0x1EDD, Sum.inl 0x1EDF, Sum.inl
  0x1EE1, Sum.inl 0x1EE3, Sum.inl 0x1EE5, Sum.inl 0x1EE7, Sum.inl 0x1EE9, Sum.inl 0x1EEB,
  Sum.inl 0x1EED, Sum.inl 0x1EEF, Sum.inl 0x1EF1, Sum.inl 0x1EF3, Sum.inl 0x1EF5, Sum.inl
  0x1EF7, Sum.inl 0x1EF9, Sum.inl 0x1EFB, Sum.inl 0x1EFD, Sum.inr "1EFF-1F07", Sum.inr
  "1F10-1F15", Sum.inr "1F20-1F27", Sum.inr "1F30-1F37", Sum.inr "1F40-1F45", Sum.inr
  "1F50-1F57", Sum.inr "1F60-1F67"]
/-- Entries 420 to 479 of the 'Lowercase' list in `text.py`. -/
def srcLowercasePart7 : List (Nat ⊕ String) :=
  [Sum.inr "1F70-1F7D", Sum.inr "1F80-1F87", Sum.inr "1F90-1F97", Sum.inr "1FA0-1FA7", Sum.inr
  "1FB0-1FB4", Sum.inl 0x1FB6, Sum.inl 0x1FB7, Sum.inl 0x1FBE, Sum.inr "1FC2-1FC4", Sum.inl
  0x1FC6, Sum.inl 0x1FC7, Sum.inr "1FD0-1FD3", Sum.inl 0x1FD6, Sum.inl 0x1FD7, Sum.inr
  "1FE0-1FE7", Sum.inr "1FF2-1FF4", Sum.inl 0x1FF6, Sum.inl 0x1FF7, Sum.inl 0x2071, Sum.inl
  0x207F, Sum.inr "2090-209C", Sum.inl 0x210A, Sum.inl 0x210E, Sum.inl 0x210F, Sum.inl 0x2113,
  Sum.inl 0x212F, Sum.inl 0x2134, Sum.inl 0x2139, Sum.inl 0x213C, Sum.inl 0x213D, Sum.inr
  "2146-2149", Sum.inl 0x214E, Sum.inr "2170-217F", Sum.inl 0x2184, Sum.inr "24D0-24E9",
  Sum.inr "2C30-2C5E", Sum.inl 0x2C61, Sum.inl 0x2C65, Sum.inl 0x2C66, Sum.inl 0x2C68, Sum.inl
  0x2C6A, Sum.inl 0x2C6C, Sum.inl 0x2C71, Sum.inl 0x2C73, Sum.inl 0x2C74, Sum.inr "2C76-2C7D",
  Sum.inl 0x2C81, Sum.inl 0x2C83, Sum.inl 0x2C85, Sum.inl 0x2C87, Sum.inl 0x2C89, Sum.inl
  0x2C8B, Sum.inl 0x2C8D, Sum.inl 0x2C8F, Sum.inl 0x2C91, Sum.inl 0x2C93, Sum.inl 0x2C95,
  Sum.inl 0x2C97, Sum.inl 0x2C99, Sum.inl 0x2C9B]
/-- Entries 480 to 539 of the 'Lowercase' list in `text.py`. -/
def srcLowercasePart8 : List (Nat ⊕ String) :=
  [Sum.inl 0x2C9D, Sum.inl 0x2C9F, Sum.inl 0x2CA1, Sum.inl 0x2CA3, Sum.inl 0x2CA5, Sum.inl
  0x2CA7, Sum.inl 0x2CA9, Sum.inl 0x2CAB, Sum.inl 0x2CAD, Sum.inl 0x2CAF, Sum.inl 0x2CB1,
  Sum.inl 0x2CB3, Sum.inl 0x2CB5, Sum.inl 0x2CB7, Sum.inl 0x2CB9, Sum.inl 0x2CBB, Sum.inl
  0x2CBD, Sum.inl 0x2CBF, Sum.inl 0x2CC1, Sum.inl 0x2CC3, Sum.inl 0x2CC5, Sum.inl 0x2CC7,
  Sum.inl 0x2CC9, Sum.inl 0x2CCB, Sum.inl 0x2CCD, Sum.inl 0x2CCF, Sum.inl 0x2CD1, Sum.inl
  0x2CD3, Sum.inl 0x2CD5, Sum.inl 0x2CD7, Sum.inl 0x2CD9, Sum.inl 0x2CDB, Sum.inl 0x2CDD,
  Sum.inl 0x2CDF, Sum.inl 0x2CE1, Sum.inl 0x2CE3, Sum.inl 0x2CE4, Sum.inl 0x2CEC, Sum.inl
  0x2CEE, Sum.inl 0x2CF3, Sum.inr "2D00-2D25", Sum.inl 0x2D27, Sum.inl 0x2D2D, Sum.inl 0xA641,
  Sum.inl 0xA643, Sum.inl 0xA645, Sum.inl 0xA647, Sum.inl 0xA649, Sum.inl 0xA64B, Sum.inl
  0xA64D, Sum.inl 0xA64F, Sum.inl 0xA651, Sum.inl 0xA653, Sum.inl 0xA655, Sum.inl 0xA657,
  Sum.inl 0xA659, Sum.inl 0xA65B, Sum.inl 0xA65D, Sum.inl 0xA65F, Sum.inl 0xA661]
/-- Entries 540 to 599 of the 'Lowercase' list in `text.py`. -/
def srcLowercasePart9 : List (Nat ⊕ String) :=
  [Sum.inl 0xA663, Sum.inl 0xA665, Sum.inl 0xA667, Sum.inl 0xA669, Sum.inl 0xA66B, Sum.inl
  0xA66D, Sum.inl 0xA681, Sum.inl 0xA683, Sum.inl 0xA685, Sum.inl 0xA687, Sum.inl 0xA689,
  Sum.inl 0xA68B, Sum.inl 0xA68D, Sum.inl 0xA68F, Sum.inl 0xA691, Sum.inl 0xA693, Sum.inl
  0xA695, Sum.inl 0xA697, Sum.inl 0xA699, Sum.inr "A69B-A69D", Sum.inl 0xA723, Sum.inl 0xA725,
  Sum.inl 0xA727, Sum.inl 0xA729, Sum.inl 0xA72B, Sum.inl 0xA72D, Sum.inr "A72F-A731", Sum.inl
  0xA733, Sum.inl 0xA735, Sum.inl 0xA737, Sum.inl 0xA739, Sum.inl 0xA73B, Sum.inl 0xA73D,
  Sum.inl 0xA73F, Sum.inl 0xA741, Sum.inl 0xA743, Sum.inl 0xA745, Sum.inl 0xA747, Sum.inl
  0xA749, Sum.inl 0xA74B, Sum.inl 0xA74D, Sum.inl 0xA74F, Sum.inl 0xA751, Sum.inl 0xA753,
  Sum.inl 0xA755, Sum.inl 0xA757, Sum.inl 0xA759, Sum.inl 0xA75B, Sum.inl 0xA75D, Sum.inl
  0xA75F, Sum.inl 0xA761, Sum.inl 0xA763, Sum.inl 0xA765, Sum.inl 0xA767, Sum.inl 0xA769,
  Sum.inl 0xA76B, Sum.inl 0xA76D, Sum.inr "A76F-A778", Sum.inl 0xA77A, Sum.inl 0xA77C]
/-- Entries 600 to 659 of the 'Lowercase' list in `text.py`. -/
def srcLowercasePart10 : List (Nat ⊕ String) :=
  [Sum.inl 0xA77F, Sum.inl 0xA781, Sum.inl 0xA783, Sum.inl 0xA785, Sum.inl 0xA787, Sum.inl
  0xA78C, Sum.inl 0xA78E, Sum.inl 0xA791, Sum.inr "A793-A795", Sum.inl 0xA797, Sum.inl 0xA799,
  Sum.inl 0xA79B, Sum.inl 0xA79D, Sum.inl 0xA79F, Sum.inl 0xA7A1, Sum.inl 0xA7A3, Sum.inl
  0xA7A5, Sum.inl 0xA7A7, Sum.inl 0xA7A9, Sum.inl 0xA7B5, Sum.inl 0xA7B7, Sum.inr "A7F8-A7FA",
  Sum.inr "AB30-AB5A", Sum.inr "AB5C-AB65", Sum.inr "AB70-ABBF", Sum.inr "FB00-FB06", Sum.inr
  "FB13-FB17", Sum.inr "FF41-FF5A", Sum.inr "10428-1044F", Sum.inr "104D8-104FB", Sum.inr
  "10CC0-10CF2", Sum.inr "118C0-118DF", Sum.inr "1D41A-1D433", Sum.inr "1D44E-1D454", Sum.inr
  "1D456-1D467", Sum.inr "1D482-1D49B", Sum.inr "1D4B6-1D4B9", Sum.inl 0x1D4BB, Sum.inr
  "1D4BD-1D4C3", Sum.inr "1D4C5-1D4CF", Sum.inr "1D4EA-1D503", Sum.inr "1D51E-1D537", Sum.inr
  "1D552-1D56B", Sum.inr "1D586-1D59F", Sum.inr "1D5BA-1D5D3", Sum.inr "1D5EE-1D607", Sum.inr
  "1D622-1D63B", Sum.inr "1D656-1D66F", Sum.inr "1D68A-1D6A5", Sum.inr "1D6C2-1D6DA", Sum.inr
  "1D6DC-1D6E1", Sum.inr "1D6FC-1D714", Sum.inr "1D716-1D71B", Sum.inr "1D736-1D74E", Sum.inr
  "1D750-1D755", Sum.inr "1D770-1D788", Sum.inr "1D78A-1D78F", Sum.inr "1D7AA-1D7C2", Sum.inr
  "1D7C4-1D7C9", Sum.inl 0x1D7CB]
/-- Entries 660 to 660 of the 'Lowercase' list in `text.py`. -/
def srcLowercasePart11 : List (Nat ⊕ String) :=
  [Sum.inr "1E922-1E943"]
/-- The 'Lowercase' entry of the `_UNICODE_CATEGORY_SRC` table in `text.py`,
in pieces purely to keep each list literal small. -/
def srcLowercase : List (Nat ⊕ String) :=
  srcLowercasePart0 ++ srcLowercasePart1 ++ srcLowercasePart2 ++ srcLowercasePart3 ++ srcLowercasePart4 ++ srcLowercasePart5 ++ srcLowercasePart6 ++ srcLowercasePart7 ++ srcLowercasePart8 ++ srcLowercasePart9 ++ srcLowercasePart10 ++ srcLowercasePart11
/-- The 'Noncharacter_Code_Point' entry of the `_UNICODE_CATEGORY_SRC` table in `text.py`. -/
def srcNoncharacter_Code_Point : List (Nat ⊕ String) :=
  [Sum.inr "FDD0-FDEF", Sum.inl 0xFFFE, Sum.inl 0xFFFF, Sum.inl 0x1FFFE, Sum.inl 0x1FFFF,
  Sum.inl 0x2FFFE, Sum.inl 0x2FFFF, Sum.inl 0x3FFFE, Sum.inl 0x3FFFF, Sum.inl 0x4FFFE, Sum.inl
  0x4FFFF, Sum.inl 0x5FFFE, Sum.inl 0x5FFFF, Sum.inl 0x6FFFE, Sum.inl 0x6FFFF, Sum.inl
  0x7FFFE, Sum.inl 0x7FFFF, Sum.inl 0x8FFFE, Sum.inl 0x8FFFF, Sum.inl 0x9FFFE, Sum.inl
  0x9FFFF, Sum.inl 0xAFFFE, Sum.inl 0xAFFFF, Sum.inl 0xBFFFE, Sum.inl 0xBFFFF, Sum.inl
  0xCFFFE, Sum.inl 0xCFFFF, Sum.inl 0xDFFFE, Sum.inl 0xDFFFF, Sum.inl 0xEFFFE, Sum.inl
  0xEFFFF, Sum.inl 0xFFFFE, Sum.inl 0xFFFFF, Sum.inl 0x10FFFE, Sum.inl 0x10FFFF]
/-- Entries 0 to 59 of the 'Uppercase' list in `text.py`. -/
def srcUppercasePart0 : List (Nat ⊕ String) :=
  [Sum.inr "0041-005A", Sum.inr "00C0-00D6", Sum.inr "00D8-00DE", Sum.inl 0x0100, Sum.inl
  0x0102, Sum.inl 0x0104, Sum.inl 0x0106, Sum.inl 0x0108, Sum.inl 0x010A, Sum.inl 0x010C,
  Sum.inl 0x010E, Sum.inl 0x0110, Sum.inl 0x0112, Sum.inl 0x0114, Sum.inl 0x0116, Sum.inl
  0x0118, Sum.inl 0x011A, Sum.inl 0x011C, Sum.inl 0x011E, Sum.inl 0x0120, Sum.inl 0x0122,
  Sum.inl 0x0124, Sum.inl 0x0126, Sum.inl 0x0128, Sum.inl 0x012A, Sum.inl 0x012C, Sum.inl
  0x012E, Sum.inl 0x0130, Sum.inl 0x0132, Sum.inl 0x0134, Sum.inl 0x0136, Sum.inl 0x0139,
  Sum.inl 0x013B, Sum.inl 0x013D, Sum.inl 0x013F, Sum.inl 0x0141, Sum.inl 0x0143, Sum.inl
  0x0145, Sum.inl 0x0147, Sum.inl 0x014A, Sum.inl 0x014C, Sum.inl 0x014E, Sum.inl 0x0150,
  Sum.inl 0x0152, Sum.inl 0x0154, Sum.inl 0x0156, Sum.inl 0x0158, Sum.inl 0x015A, Sum.inl
  0x015C, Sum.inl 0x015E, Sum.inl 0x0160, Sum.inl 0x0162, Sum.inl 0x0164, Sum.inl 0x0166,
  Sum.inl 0x0168, Sum.inl 0x016A, Sum.inl 0x016C, Sum.inl 0x016E, Sum.inl 0x0170, Sum.inl
  0x0172]
/-- Entries 60 to 119 of the 'Uppercase' list in `text.py`. -/
def srcUppercasePart1 : List (Nat ⊕ String) :=
  [Sum.inl 0x0174, Sum.inl 0x0176, Sum.inl 0x0178, Sum.inl 0x0179, Sum.inl 0x017B, Sum.inl
  0x017D, Sum.inl 0x0181, Sum.inl 0x0182, Sum.inl 0x0184, Sum.inl 0x0186, Sum.inl 0x0187,
  Sum.inr "0189-018B", Sum.inr "018E-0191", Sum.inl 0x0193, Sum.inl 0x0194, Sum.inr
  "0196-0198", Sum.inl 0x019C, Sum.inl 0x019D, Sum.inl 0x019F, Sum.inl 0x01A0, Sum.inl 0x01A2,
  Sum.inl 0x01A4, Sum.inl 0x01A6, Sum.inl 0x01A7, Sum.inl 0x01A9, Sum.inl 0x01AC, Sum.inl
  0x01AE, Sum.inl 0x01AF, Sum.inr "01B1-01B3", Sum.inl 0x01B5, Sum.inl 0x01B7, Sum.inl 0x01B8,
  Sum.inl 0x01BC, Sum.inl 0x01C4, Sum.inl 0x01C7, Sum.inl 0x01CA, Sum.inl 0x01CD, Sum.inl
  0x01CF, Sum.inl 0x01D1, Sum.inl 0x01D3, Sum.inl 0x01D5, Sum.inl 0x01D7, Sum.inl 0x01D9,
  Sum.inl 0x01DB, Sum.inl 0x01DE, Sum.inl 0x01E0, Sum.inl 0x01E2, Sum.inl 0x01E4, Sum.inl
  0x01E6, Sum.inl 0x01E8, Sum.inl 0x01EA, Sum.inl 0x01EC, Sum.inl 0x01EE, Sum.inl 0x01F1,
  Sum.inl 0x01F4, Sum.inr "01F6-01F8", Sum.inl 0x01FA, Sum.inl 0x01FC, Sum.inl 0x01FE, Sum.inl
  0x0200]
/-- Entries 120 to 179 of the 'Uppercase' list in `text.py`. -/
def srcUppercasePart2 : List (Nat ⊕ String) :=
  [Sum.inl 0x0202, Sum.inl 0x0204, Sum.inl 0x0206, Sum.inl 0x0208, Sum.inl 0x020A, Sum.inl
  0x020C, Sum.inl 0x020E, Sum.inl 0x0210, Sum.inl 0x0212, Sum.inl 0x0214, Sum.inl 0x0216,
  Sum.inl 0x0218, Sum.inl 0x021A, Sum.inl 0x021C, Sum.inl 0x021E, Sum.inl 0x0220, Sum.inl
  0x0222, Sum.inl 0x0224, Sum.inl 0x0226, Sum.inl 0x0228, Sum.inl 0x022A, Sum.inl 0x022C,
  Sum.inl 0x022E, Sum.inl 0x0230, Sum.inl 0x0232, Sum.inl 0x023A, Sum.inl 0x023B, Sum.inl
  0x023D, Sum.inl 0x023E, Sum.inl 0x0241, Sum.inr "0243-0246", Sum.inl 0x0248, Sum.inl 0x024A,
  Sum.inl 0x024C, Sum.inl 0x024E, Sum.inl 0x0370, Sum.inl 0x0372, Sum.inl 0x0376, Sum.inl
  0x037F, Sum.inl 0x0386, Sum.inr "0388-038A", Sum.inl 0x038C, Sum.inl 0x038E, Sum.inl 0x038F,
  Sum.inr "0391-03A1", Sum.inr "03A3-03AB", Sum.inl 0x03CF, Sum.inr "03D2-03D4", Sum.inl
  0x03D8, Sum.inl 0x03DA, Sum.inl 0x03DC, Sum.inl 0x03DE, Sum.inl 0x03E0, Sum.inl 0x03E2,
  Sum.inl 0x03E4, Sum.inl 0x03E6, Sum.inl 0x03E8, Sum.inl 0x03EA, Sum.inl 0x03EC, Sum.inl
  0x03EE]
/-- Entries 180 to 239 of the 'Uppercase' list in `text.py`. -/
def srcUppercasePart3 : List (Nat ⊕ String) :=
  [Sum.inl 0x03F4, Sum.inl 0x03F7, Sum.inl 0x03F9, Sum.inl 0x03FA, Sum.inr "03FD-042F", Sum.inl
  0x0460, Sum.inl 0x0462, Sum.inl 0x0464, Sum.inl 0x0466, Sum.inl 0x0468, Sum.inl 0x046A,
  Sum.inl 0x046C, Sum.inl 0x046E, Sum.inl 0x0470, Sum.inl 0x0472, Sum.inl 0x0474, Sum.inl
  0x0476, Sum.inl 0x0478, Sum.inl 0x047A, Sum.inl 0x047C, Sum.inl 0x047E, Sum.inl 0x0480,
  Sum.inl 0x048A, Sum.inl 0x048C, Sum.inl 0x048E, Sum.inl 0x0490, Sum.inl 0x0492, Sum.inl
  0x0494, Sum.inl 0x0496, Sum.inl 0x0498, Sum.inl 0x049A, Sum.inl 0x049C, Sum.inl 0x049E,
  Sum.inl 0x04A0, Sum.inl 0x04A2, Sum.inl 0x04A4, Sum.inl 0x04A6, Sum.inl 0x04A8, Sum.inl
  0x04AA, Sum.inl 0x04AC, Sum.inl 0x04AE, Sum.inl 0x04B0, Sum.inl 0x04B2, Sum.inl 0x04B4,
  Sum.inl 0x04B6, Sum.inl 0x04B8, Sum.inl 0x04BA, Sum.inl 0x04BC, Sum.inl 0x04BE, Sum.inl
  0x04C0, Sum.inl 0x04C1, Sum.inl 0x04C3, Sum.inl 0x04C5, Sum.inl 0x04C7, Sum.inl 0x04C9,
  Sum.inl 0x04CB, Sum.inl 0x04CD, Sum.inl 0x04D0, Sum.inl 0x04D2, Sum.inl 0x04D4]
/-- Entries 240 to 299 of the 'Uppercase' list in `text.py`. -/
def srcUppercasePart4 : List (Nat ⊕ String) :=
  [Sum.inl 0x04D6, Sum.inl 0x04D8, Sum.inl 0x04DA, Sum.inl 0x04DC, Sum.inl 0x04DE, Sum.inl
  0x04E0, Sum.inl 0x04E2, Sum.inl 0x04E4, Sum.inl 0x04E6, Sum.inl 0x04E8, Sum.inl 0x04EA,
  Sum.inl 0x04EC, Sum.inl 0x04EE, Sum.inl 0x04F0, Sum.inl 0x04F2, Sum.inl 0x04F4, Sum.inl
  0x04F6, Sum.inl 0x04F8, Sum.inl 0x04FA, Sum.inl 0x04FC, Sum.inl 0x04FE, Sum.inl 0x0500,
  Sum.inl 0x0502, Sum.inl 0x0504, Sum.inl 0x0506, Sum.inl 0x0508, Sum.inl 0x050A, Sum.inl
  0x050C, Sum.inl 0x050E, Sum.inl 0x0510, Sum.inl 0x0512, Sum.inl 0x0514, Sum.inl 0x0516,
  Sum.inl 0x0518, Sum.inl 0x051A, Sum.inl 0x051C, Sum.inl 0x051E, Sum.inl 0x0520, Sum.inl
  0x0522, Sum.inl 0x0524, Sum.inl 0x0526, Sum.inl 0x0528, Sum.inl 0x052A, Sum.inl 0x052C,
  Sum.inl 0x052E, Sum.inr "0531-0556", Sum.inr "10A0-10C5", Sum.inl 0x10C7, Sum.inl 0x10CD,
  Sum.inr "13A0-13F5", Sum.inl 0x1E00, Sum.inl 0x1E02, Sum.inl 0x1E04, Sum.inl 0x1E06, Sum.inl
  0x1E08, Sum.inl 0x1E0A, Sum.inl 0x1E0C, Sum.inl 0x1E0E, Sum.inl 0x1E10, Sum.inl 0x1E12]
/-- Entries 300 to 359 of the 'Uppercase' list in `text.py`. -/
def srcUppercasePart5 : List (Nat ⊕ String) :=
  [Sum.inl 0x1E14, Sum.inl 0x1E16, Sum.inl 0x1E18, Sum.inl 0x1E1A, Sum.inl 0x1E1C, Sum.inl
  0x1E1E, Sum.inl 0x1E20, Sum.inl 0x1E22, Sum.inl 0x1E24, Sum.inl 0x1E26, Sum.inl 0x1E28,
  Sum.inl 0x1E2A, Sum.inl 0x1E2C, Sum.inl 0x1E2E, Sum.inl 0x1E30, Sum.inl 0x1E32, Sum.inl
  0x1E34, Sum.inl 0x1E36, Sum.inl 0x1E38, Sum.inl 0x1E3A, Sum.inl 0x1E3C, Sum.inl 0x1E3E,
  Sum.inl 0x1E40, Sum.inl 0x1E42, Sum.inl 0x1E44, Sum.inl 0x1E46, Sum.inl 0x1E48, Sum.inl
  0x1E4A, Sum.inl 0x1E4C, Sum.inl 0x1E4E, Sum.inl 0x1E50, Sum.inl 0x1E52, Sum.inl 0x1E54,
  Sum.inl 0x1E56, Sum.inl 0x1E58, Sum.inl 0x1E5A, Sum.inl 0x1E5C, Sum.inl 0x1E5E, Sum.inl
  0x1E60, Sum.inl 0x1E62, Sum.inl 0x1E64, Sum.inl 0x1E66, Sum.inl 0x1E68, Sum.inl 0x1E6A,
  Sum.inl 0x1E6C, Sum.inl 0x1E6E, Sum.inl 0x1E70, Sum.inl 0x1E72, Sum.inl 0x1E74, Sum.inl
  0x1E76, Sum.inl 0x1E78, Sum.inl 0x1E7A, Sum.inl 0x1E7C, Sum.inl 0x1E7E, Sum.inl 0x1E80,
  Sum.inl 0x1E82, Sum.inl 0x1E84, Sum.inl 0x1E86, Sum.inl 0x1E88, Sum.inl 0x1E8A]
/-- Entries 360 to 419 of the 'Uppercase' list in `text.py`. -/
def srcUppercasePart6 : List (Nat ⊕ String) :=
  [Sum.inl 0x1E8C, Sum.inl 0x1E8E, Sum.inl 0x1E90, Sum.inl 0x1E92, Sum.inl 0x1E94, Sum.inl
  0x1E9E, Sum.inl 0x1EA0, Sum.inl 0x1EA2, Sum.inl 0x1EA4, Sum.inl 0x1EA6, Sum.inl 0x1EA8,
  Sum.inl 0x1EAA, Sum.inl 0x1EAC, Sum.inl 0x1EAE, Sum.inl 0x1EB0, Sum.inl 0x1EB2, Sum.inl
  0x1EB4, Sum.inl 0x1EB6, Sum.inl 0x1EB8, Sum.inl 0x1EBA, Sum.inl 0x1EBC, Sum.inl 0x1EBE,
  Sum.inl 0x1EC0, Sum.inl 0x1EC2, Sum.inl 0x1EC4, Sum.inl 0x1EC6, Sum.inl 0x1EC8, Sum.inl
  0x1ECA, Sum.inl 0x1ECC, Sum.inl 0x1ECE, Sum.inl 0x1ED0, Sum.inl 0x1ED2, Sum.inl 0x1ED4,
  Sum.inl 0x1ED6, Sum.inl 0x1ED8, Sum.inl 0x1EDA, Sum.inl 0x1EDC, Sum.inl 0x1EDE, Sum.inl
  0x1EE0, Sum.inl 0x1EE2, Sum.inl 0x1EE4, Sum.inl 0x1EE6, Sum.inl 0x1EE8, Sum.inl 0x1EEA,
  Sum.inl 0x1EEC, Sum.inl 0x1EEE, Sum.inl 0x1EF0, Sum.inl 0x1EF2, Sum.inl 0x1EF4, Sum.inl
  0x1EF6, Sum.inl 0x1EF8, Sum.inl 0x1EFA, Sum.inl 0x1EFC, Sum.inl 0x1EFE, Sum.inr "1F08-1F0F",
  Sum.inr "1F18-1F1D", Sum.inr "1F28-1F2F", Sum.inr "1F38-1F3F", Sum.inr "1F48-1F4D", Sum.inl
  0x1F59]
/-- Entries 420 to 479 of the 'Uppercase' list in `text.py`. -/
def srcUppercasePart7 : List (Nat ⊕ String) :=
  [Sum.inl 0x1F5B, Sum.inl 0x1F5D, Sum.inl 0x1F5F, Sum.inr "1F68-1F6F", Sum.inr "1FB8-1FBB",
  Sum.inr "1FC8-1FCB", Sum.inr "1FD8-1FDB", Sum.inr "1FE8-1FEC", Sum.inr "1FF8-1FFB", Sum.inl
  0x2102, Sum.inl 0x2107, Sum.inr "210B-210D", Sum.inr "2110-2112", Sum.inl 0x2115, Sum.inr
  "2119-211D", Sum.inl 0x2124, Sum.inl 0x2126, Sum.inl 0x2128, Sum.inr "212A-212D", Sum.inr
  "2130-2133", Sum.inl 0x213E, Sum.inl 0x213F, Sum.inl 0x2145, Sum.inr "2160-216F", Sum.inl
  0x2183, Sum.inr "24B6-24CF", Sum.inr "2C00-2C2E", Sum.inl 0x2C60, Sum.inr "2C62-2C64",
  Sum.inl 0x2C67, Sum.inl 0x2C69, Sum.inl 0x2C6B, Sum.inr "2C6D-2C70", Sum.inl 0x2C72, Sum.inl
  0x2C75, Sum.inr "2C7E-2C80", Sum.inl 0x2C82, Sum.inl 0x2C84, Sum.inl 0x2C86, Sum.inl 0x2C88,
  Sum.inl 0x2C8A, Sum.inl 0x2C8C, Sum.inl 0x2C8E, Sum.inl 0x2C90, Sum.inl 0x2C92, Sum.inl
  0x2C94, Sum.inl 0x2C96, Sum.inl 0x2C98, Sum.inl 0x2C9A, Sum.inl 0x2C9C, Sum.inl 0x2C9E,
  Sum.inl 0x2CA0, Sum.inl 0x2CA2, Sum.inl 0x2CA4, Sum.inl 0x2CA6, Sum.inl 0x2CA8, Sum.inl
  0x2CAA, Sum.inl 0x2CAC, Sum.inl 0x2CAE, Sum.inl 0x2CB0]
/-- Entries 480 to 539 of the 'Uppercase' list in `text.py`. -/
def srcUppercasePart8 : List (Nat ⊕ String) :=
  [Sum.inl 0x2CB2, Sum.inl 0x2CB4, Sum.inl 0x2CB6, Sum.inl 0x2CB8, Sum.inl 0x2CBA, Sum.inl
  0x2CBC, Sum.inl 0x2CBE, Sum.inl 0x2CC0, Sum.inl 0x2CC2, Sum.inl 0x2CC4, Sum.inl 0x2CC6,
  Sum.inl 0x2CC8, Sum.inl 0x2CCA, Sum.inl 0x2CCC, Sum.inl 0x2CCE, Sum.inl 0x2CD0, Sum.inl
  0x2CD2, Sum.inl 0x2CD4, Sum.inl 0x2CD6, Sum.inl 0x2CD8, Sum.inl 0x2CDA, Sum.inl 0x2CDC,
  Sum.inl 0x2CDE, Sum.inl 0x2CE0, Sum.inl 0x2CE2, Sum.inl 0x2CEB, Sum.inl 0x2CED, Sum.inl
  0x2CF2, Sum.inl 0xA640, Sum.inl 0xA642, Sum.inl 0xA644, Sum.inl 0xA646, Sum.inl 0xA648,
  Sum.inl 0xA64A, Sum.inl 0xA64C, Sum.inl 0xA64E, Sum.inl 0xA650, Sum.inl 0xA652, Sum.inl
  0xA654, Sum.inl 0xA656, Sum.inl 0xA658, Sum.inl 0xA65A, Sum.inl 0xA65C, Sum.inl 0xA65E,
  Sum.inl 0xA660, Sum.inl 0xA662, Sum.inl 0xA664, Sum.inl 0xA666, Sum.inl 0xA668, Sum.inl
  0xA66A, Sum.inl 0xA66C, Sum.inl 0xA680, Sum.inl 0xA682, Sum.inl 0xA684, Sum.inl 0xA686,
  Sum.inl 0xA688, Sum.inl 0xA68A, Sum.inl 0xA68C, Sum.inl 0xA68E, Sum.inl 0xA690]
/-- Entries 540 to 599 of the 'Uppercase' list in `text.py`. -/
def srcUppercasePart9 : List (Nat ⊕ String) :=
  [Sum.inl 0xA692, Sum.inl 0xA694, Sum.inl 0xA696, Sum.inl 0xA698, Sum.inl 0xA69A, Sum.inl
  0xA722, Sum.inl 0xA724, Sum.inl 0xA726, Sum.inl 0xA728, Sum.inl 0xA72A, Sum.inl 0xA72C,
  Sum.inl 0xA72E, Sum.inl 0xA732, Sum.inl 0xA734, Sum.inl 0xA736, Sum.inl 0xA738, Sum.inl
  0xA73A, Sum.inl 0xA73C, Sum.inl 0xA73E, Sum.inl 0xA740, Sum.inl 0xA742, Sum.inl 0xA744,
  Sum.inl 0xA746, Sum.inl 0xA748, Sum.inl 0xA74A, Sum.inl 0xA74C, Sum.inl 0xA74E, Sum.inl
  0xA750, Sum.inl 0xA752, Sum.inl 0xA754, Sum.inl 0xA756, Sum.inl 0xA758, Sum.inl 0xA75A,
  Sum.inl 0xA75C, Sum.inl 0xA75E, Sum.inl 0xA760, Sum.inl 0xA762, Sum.inl 0xA764, Sum.inl
  0xA766, Sum.inl 0xA768, Sum.inl 0xA76A, Sum.inl 0xA76C, Sum.inl 0xA76E, Sum.inl 0xA779,
  Sum.inl 0xA77B, Sum.inl 0xA77D, Sum.inl 0xA77E, Sum.inl 0xA780, Sum.inl 0xA782, Sum.inl
  0xA784, Sum.inl 0xA786, Sum.inl 0xA78B, Sum.inl 0xA78D, Sum.inl 0xA790, Sum.inl 0xA792,
  Sum.inl 0xA796, Sum.inl 0xA798, Sum.inl 0xA79A, Sum.inl 0xA79C, Sum.inl 0xA79E]
/-- Entries 600 to 651 of the 'Uppercase' list in `text.py`. -/
def srcUppercasePart10 : List (Nat ⊕ String) :=
  [Sum.inl 0xA7A0, Sum.inl 0xA7A2, Sum.inl 0xA7A4, Sum.inl 0xA7A6, Sum.inl 0xA7A8, Sum.inr
  "A7AA-A7AE", Sum.inr "A7B0-A7B4", Sum.inl 0xA7B6, Sum.inr "FF21-FF3A", Sum.inr
  "10400-10427", Sum.inr "104B0-104D3", Sum.inr "10C80-10CB2", Sum.inr "118A0-118BF", Sum.inr
  "1D400-1D419", Sum.inr "1D434-1D44D", Sum.inr "1D468-1D481", Sum.inl 0x1D49C, Sum.inl
  0x1D49E, Sum.inl 0x1D49F, Sum.inl 0x1D4A2, Sum.inl 0x1D4A5, Sum.inl 0x1D4A6, Sum.inr
  "1D4A9-1D4AC", Sum.inr "1D4AE-1D4B5", Sum.inr "1D4D0-1D4E9", Sum.inl 0x1D504, Sum.inl
  0x1D505, Sum.inr "1D507-1D50A", Sum.inr "1D50D-1D514", Sum.inr "1D516-1D51C", Sum.inl
  0x1D538, Sum.inl 0x1D539, Sum.inr "1D53B-1D53E", Sum.inr "1D540-1D544", Sum.inl 0x1D546,
  Sum.inr "1D54A-1D550", Sum.inr "1D56C-1D585", Sum.inr "1D5A0-1D5B9", Sum.inr "1D5D4-1D5ED",
  Sum.inr "1D608-1D621", Sum.inr "1D63C-1D655", Sum.inr "1D670-1D689", Sum.inr "1D6A8-1D6C0",
  Sum.inr "1D6E2-1D6FA", Sum.inr "1D71C-1D734", Sum.inr "1D756-1D76E", Sum.inr "1D790-1D7A8",
  Sum.inl 0x1D7CA, Sum.inr "1E900-1E921", Sum.inr "1F130-1F149", Sum.inr "1F150-1F169",
  Sum.inr "1F170-1F189"]
/-- The 'Uppercase' entry of the `_UNICODE_CATEGORY_SRC` table in `text.py`,
in pieces purely to keep each list literal small. -/
def srcUppercase : List (Nat ⊕ String) :=
  srcUppercasePart0 ++ srcUppercasePart1 ++ srcUppercasePart2 ++ srcUppercasePart3 ++ srcUppercasePart4 ++ srcUppercasePart5 ++ srcUppercasePart6 ++ srcUppercasePart7 ++ srcUppercasePart8 ++ srcUppercasePart9 ++ srcUppercasePart10
/-- The 'White_Space' entry of the `_UNICODE_CATEGORY_SRC` table in `text.py`. -/
def srcWhite_Space : List (Nat ⊕ String) :=
  [Sum.inr "0009-000D", Sum.inl 0x0020, Sum.inl 0x0085, Sum.inl 0x00A0, Sum.inl 0x1680, Sum.inr
  "2000-200A", Sum.inl 0x2028, Sum.inl 0x2029, Sum.inl 0x202F, Sum.inl 0x205F, Sum.inl 0x3000]
/-- The 'Latin' entry of the `_UNICODE_CATEGORY_SRC` table in `text.py`. -/
def srcLatin : List (Nat ⊕ String) :=
  [Sum.inr "0000-007F", Sum.inr "0080-00FF", Sum.inr "0100-017F", Sum.inr "0180-024F", Sum.inr
  "0250-02AF", Sum.inr "02B0-02FF", Sum.inr "1D00-1D7F", Sum.inr "1D80-1DBF", Sum.inr
  "1E00-1EFF", Sum.inr "2070-209F", Sum.inr "2100-214F", Sum.inr "2150-218F", Sum.inr
  "2C60-2C7F", Sum.inr "A720-A7FF", Sum.inr "AB30-AB6F", Sum.inr "FB00-FB4F", Sum.inr
  "FF00-FFEF"]
/-- The 'Latin_Alphabetic' entry of the `_UNICODE_CATEGORY_SRC` table in `text.py`. -/
def srcLatin_Alphabetic : List (Nat ⊕ String) :=
  [Sum.inr "0041-005A", Sum.inr "0061-007A", Sum.inl 0x00B5, Sum.inr "00C0-00D6", Sum.inr
  "00D8-00F6", Sum.inr "00F8-00FF", Sum.inr "0100-017F", Sum.inr "0180-024F", Sum.inr
  "1E00-1EFF", Sum.inr "2C60-2C7F", Sum.inr "A720-A7AC", Sum.inr "A7B0-A7B7", Sum.inr
  "A7F7-A7FF", Sum.inr "AB30-AB65", Sum.inr "FB00-FB06", Sum.inr "FF20-FF5F"]
/-- The `_UNICODE_CATEGORY_SRC` dict of `text.py`, as an association list in
insertion order (Python dicts preserve insertion order). -/
def _UNICODE_CATEGORY_SRC : List (String × List (Nat ⊕ String)) := [
  ("ASCII", srcASCII),
  ("Alphabetic", srcAlphabetic),
  ("Any", srcAny),
  ("Default_Ignorable_Code_Point", srcDefault_Ignorable_Code_Point),
  ("Lowercase", srcLowercase),
  ("Noncharacter_Code_Point", srcNoncharacter_Code_Point),
  ("Uppercase", srcUppercase),
  ("White_Space", srcWhite_Space),
  ("Latin", srcLatin),
  ("Latin_Alphabetic", srcLatin_Alphabetic)]
/-- The dict comprehension of `get_unicode_category_strings`, entry by entry
in table order, propagating the first error. -/
def buildCategoryStrings :
    List (String × List (Nat ⊕ String)) → Except PyErr (List (String × List Nat))
  | [] => .ok []
  | kv :: rest => do
    let s ← _unicode_def_src_to_str kv.2
    let t ← buildCategoryStrings rest
    .ok ((kv.1, s) :: t)
/-- `get_unicode_category_strings` from `text.py`: the dict comprehension
applying `_unicode_def_src_to_str` to every entry of the table, in table
order. -/
def get_unicode_category_strings : Except PyErr (List (String × List Nat)) :=
  buildCategoryStrings _UNICODE_CATEGORY_SRC
/-- `get_unicode_characters` from `text.py`: dict lookup (`KeyError` when the
category is absent) followed by `_unicode_def_src_to_str`. -/
def get_unicode_characters (category : String) : Except PyErr (List Nat) :=
  match _UNICODE_CATEGORY_SRC.lookup category with
  | some v => _unicode_def_src_to_str v
  | none => .error .keyError
/-- Validity of one declaration, as the spec's §3 "Codepoint Declaration"
describes: a single code point in `chr`'s range, or a range string reading as
exactly two hexadecimal endpoints `A-B` with `A ≤ B` and every code point of
the range in `chr`'s range. -/
def declValid : Nat ⊕ String → Bool
  | .inl n => decide (n ≤ 0x10FFFF)
  | .inr s =>
    match parseHexList (pySplitHyphen s.data) with
    | some [a, b] => decide (a ≤ b) && decide (b ≤ 0x10FFFF)
    | _ => false
/-- The spec's §3 "Expanded Category String", in the spec's words: the
concatenation, in declaration order, of each declared code point (as a single
character) and of each declared range's characters in ascending code point
order. -/
def specExpansion : List (Nat ⊕ String) → List Nat
  | [] => []
  | .inl n :: rest => n :: specExpansion rest
  | .inr s :: rest =>
    (match parseHexList (pySplitHyphen s.data) with
     | some [a, b] => List.range' a (b + 1 - a)
     | _ => []) ++ specExpansion rest
/-- The spec's declared length of one declaration: 1 for a single code point
and `B − A + 1` for a range `A-B` (stated with truncated subtraction, which
agrees with `B − A + 1` whenever `A ≤ B`). -/
def declLen : Nat ⊕ String → Nat
  | .inl _ => 1
  | .inr s =>
    match parseHexList (pySplitHyphen s.data) with
    | some [a, b] => b + 1 - a
    | _ => 0
/-- The sum of the declared lengths of a declaration list. -/
def declLenSum : List (Nat ⊕ String) → Nat
  | [] => 0
  | d :: rest => declLen d + declLenSum rest
/-- The batch result the spec describes: every category name of the table
paired with its Expanded Category String, in table order. -/
def categoryStringsSpec : List (String × List Nat) :=
  _UNICODE_CATEGORY_SRC.map fun kv => (kv.1, specExpansion kv.2)

theorem pyReplace_append (old : Char) (new : List Char) (a b : List Char) :
    pyReplace old new (a ++ b) = pyReplace old new a ++ pyReplace old new b := by
  induction a with
  | nil => rfl
  | cons c a ih => simp [pyReplace, ih, List.append_assoc]

theorem escape_newlines_eq_loop (s : List Char) :
    escape_newlines s =
      pyReplace '\r' ['\\', 'r']
        (pyReplace '\n' ['\\', 'n']
          (pyReplace '\\' ['\\', '\\'] s)) := by
  cases s <;> simp [escape_newlines, pyReplace]

theorem escape_tabs_newlines_eq_loop (s : List Char) :
    escape_tabs_newlines s =
      pyReplace '\t' ['\\', 't']
        (pyReplace '\r' ['\\', 'r']
          (pyReplace '\n' ['\\', 'n']
            (pyReplace '\\' ['\\', '\\'] s))) := by
  cases s <;> simp [escape_tabs_newlines, pyReplace]

theorem unescape_newlines_eq_loop (s : List Char) :
    unescape_newlines s = unescapeNewlinesLoop false s := by
  cases s <;> simp [unescape_newlines, unescapeNewlinesLoop]

theorem unescape_tabs_newlines_eq_loop (s : List Char) :
    unescape_tabs_newlines s = unescapeTabsNewlinesLoop false s := by
  cases s <;> simp [unescape_tabs_newlines, unescapeTabsNewlinesLoop]

theorem escape_newlines_cons (c : Char) (s : List Char) :
    escape_newlines (c :: s) = escCharNL c ++ escape_newlines s := by
  rw [escape_newlines_eq_loop, escape_newlines_eq_loop]
  by_cases h1 : c = '\\'
  · subst h1; simp [pyReplace, pyReplace_append, escCharNL]
  · by_cases h2 : c = '\n'
    · subst h2; simp [pyReplace, pyReplace_append, escCharNL]
    · by_cases h3 : c = '\r'
      · subst h3; simp [pyReplace, pyReplace_append, escCharNL]
      · simp [pyReplace, pyReplace_append, escCharNL, h1, h2, h3]

theorem escape_tabs_newlines_cons (c : Char) (s : List Char) :
    escape_tabs_newlines (c :: s) = escCharTNL c ++ escape_tabs_newlines s := by
  rw [escape_tabs_newlines_eq_loop, escape_tabs_newlines_eq_loop]
  by_cases h1 : c = '\\'
  · subst h1; simp [pyReplace, pyReplace_append, escCharTNL]
  · by_cases h2 : c = '\n'
    · subst h2; simp [pyReplace, pyReplace_append, escCharTNL]
    · by_cases h3 : c = '\r'
      · subst h3; simp [pyReplace, pyReplace_append, escCharTNL]
      · by_cases h4 : c = '\t'
        · subst h4; simp [pyReplace, pyReplace_append, escCharTNL]
        · simp [pyReplace, pyReplace_append, escCharTNL, h1, h2, h3, h4]

theorem unescapeNewlinesLoop_escape (s : List Char) :
    unescapeNewlinesLoop false (escape_newlines s) = s := by
  induction s with
  | nil => rfl
  | cons c s ih =>
    rw [escape_newlines_cons]
    by_cases h1 : c = '\\'
    · subst h1; simp [escCharNL, unescapeNewlinesLoop, ih]
    · by_cases h2 : c = '\n'
      · subst h2; simp [escCharNL, unescapeNewlinesLoop, ih]
      · by_cases h3 : c = '\r'
        · subst h3; simp [escCharNL, unescapeNewlinesLoop, ih]
        · simp [escCharNL, unescapeNewlinesLoop, h1, h2, h3, ih]

theorem unescapeTabsNewlinesLoop_escape (s : List Char) :
    unescapeTabsNewlinesLoop false (escape_tabs_newlines s) = s := by
  induction s with
  | nil => rfl
  | cons c s ih =>
    rw [escape_tabs_newlines_cons]
    by_cases h1 : c = '\\'
    · subst h1; simp [escCharTNL, unescapeTabsNewlinesLoop, ih]
    · by_cases h2 : c = '\n'
      · subst h2; simp [escCharTNL, unescapeTabsNewlinesLoop, ih]
      · by_cases h3 : c = '\r'
        · subst h3; simp [escCharTNL, unescapeTabsNewlinesLoop, ih]
        · by_cases h4 : c = '\t'
          · subst h4; simp [escCharTNL, unescapeTabsNewlinesLoop, ih]
          · simp [escCharTNL, unescapeTabsNewlinesLoop, h1, h2, h3, h4, ih]

/-- C1: decoding the encoded output of any input string reproduces the
original exactly, for both the newline pair and the tabs-and-newlines pair. -/
theorem unescape_escape_roundtrip (s : List Char) :
    unescape_newlines (escape_newlines s) = s ∧
    unescape_tabs_newlines (escape_tabs_newlines s) = s := by
  refine ⟨?_, ?_⟩
  · rw [unescape_newlines_eq_loop]; exact unescapeNewlinesLoop_escape s
  · rw [unescape_tabs_newlines_eq_loop]; exact unescapeTabsNewlinesLoop_escape s

theorem mem_escCharNL {x c : Char} (hx : x ∈ escCharNL c) :
    x ≠ '\n' ∧ x ≠ '\r' := by
  by_cases h1 : c = '\\'
  · subst h1; simp [escCharNL] at hx; subst hx; decide
  · by_cases h2 : c = '\n'
    · subst h2; simp [escCharNL] at hx; rcases hx with rfl | rfl <;> decide
    · by_cases h3 : c = '\r'
      · subst h3; simp [escCharNL] at hx; rcases hx with rfl | rfl <;> decide
      · simp [escCharNL, h1, h2, h3] at hx; subst hx; exact ⟨h2, h3⟩

theorem mem_escCharTNL {x c : Char} (hx : x ∈ escCharTNL c) :
    x ≠ '\n' ∧ x ≠ '\r' ∧ x ≠ '\t' := by
  by_cases h1 : c = '\\'
  · subst h1; simp [escCharTNL] at hx; subst hx; decide
  · by_cases h2 : c = '\n'
    · subst h2; simp [escCharTNL] at hx; rcases hx with rfl | rfl <;> decide
    · by_cases h3 : c = '\r'
      · subst h3; simp [escCharTNL] at hx; rcases hx with rfl | rfl <;> decide
      · by_cases h4 : c = '\t'
        · subst h4; simp [escCharTNL] at hx; rcases hx with rfl | rfl <;> decide
        · simp [escCharTNL, h1, h2, h3, h4] at hx
          subst hx; exact ⟨h2, h3, h4⟩

/-- C5: escaped output contains no raw LF or CR, and the tabs variant's output
additionally contains no raw TAB. -/
theorem escape_output_no_raw_controls (s : List Char) :
    '\n' ∉ escape_newlines s ∧ '\r' ∉ escape_newlines s ∧
    '\n' ∉ escape_tabs_newlines s ∧ '\r' ∉ escape_tabs_newlines s ∧
    '\t' ∉ escape_tabs_newlines s := by
  induction s with
  | nil => refine ⟨?_, ?_, ?_, ?_, ?_⟩ <;> simp [escape_newlines, escape_tabs_newlines]
  | cons c s ih =>
    obtain ⟨i1, i2, i3, i4, i5⟩ := ih
    rw [escape_newlines_cons, escape_tabs_newlines_cons]
    refine ⟨?_, ?_, ?_, ?_, ?_⟩ <;> intro hmem <;>
      rcases List.mem_append.mp hmem with h | h
    · exact (mem_escCharNL h).1 rfl
    · exact i1 h
    · exact (mem_escCharNL h).2 rfl
    · exact i2 h
    · exact (mem_escCharTNL h).1 rfl
    · exact i3 h
    · exact (mem_escCharTNL h).2.1 rfl
    · exact i4 h
    · exact (mem_escCharTNL h).2.2 rfl
    · exact i5 h

theorem unescapeNewlinesLoop_append_backslash (s : List Char) :
    ∀ b, unescapeFinalState b s = false →
      unescapeNewlinesLoop b (s ++ ['\\']) = unescapeNewlinesLoop b s := by
  induction s with
  | nil =>
    intro b hb
    simp [unescapeFinalState] at hb
    subst hb
    simp [unescapeNewlinesLoop]
  | cons c s ih =>
    intro b hb
    cases b with
    | true =>
      simp [unescapeFinalState] at hb
      simp [unescapeNewlinesLoop, ih false hb]
    | false =>
      by_cases hc : c = '\\'
      · subst hc
        simp [unescapeFinalState] at hb
        simp [unescapeNewlinesLoop, ih true hb]
      · simp [unescapeFinalState, hc] at hb
        simp [unescapeNewlinesLoop, hc, ih false hb]

theorem unescapeTabsNewlinesLoop_append_backslash (s : List Char) :
    ∀ b, unescapeFinalState b s = false →
      unescapeTabsNewlinesLoop b (s ++ ['\\']) = unescapeTabsNewlinesLoop b s := by
  induction s with
  | nil =>
    intro b hb
    simp [unescapeFinalState] at hb
    subst hb
    simp [unescapeTabsNewlinesLoop]
  | cons c s ih =>
    intro b hb
    cases b with
    | true =>
      simp [unescapeFinalState] at hb
      simp [unescapeTabsNewlinesLoop, ih false hb]
    | false =>
      by_cases hc : c = '\\'
      · subst hc
        simp [unescapeFinalState] at hb
        simp [unescapeTabsNewlinesLoop, ih true hb]
      · simp [unescapeFinalState, hc] at hb
        simp [unescapeTabsNewlinesLoop, hc, ih false hb]

/-- C6: an unmatched trailing backslash (one appended to an input whose scan
ends outside escape state) is silently dropped by both unescape functions,
which are total and raise no error; in particular the backslash-terminated
input abc-backslash decodes to abc. -/
theorem unescape_trailing_backslash_dropped (s : List Char)
    (h : unescapeFinalState false s = false) :
    unescape_newlines (s ++ ['\\']) = unescape_newlines s ∧
    unescape_tabs_newlines (s ++ ['\\']) = unescape_tabs_newlines s ∧
    unescape_newlines ['a', 'b', 'c', '\\'] = ['a', 'b', 'c'] ∧
    unescape_tabs_newlines ['a', 'b', 'c', '\\'] = ['a', 'b', 'c'] := by
  refine ⟨?_, ?_, by decide, by decide⟩
  · rw [unescape_newlines_eq_loop, unescape_newlines_eq_loop]
    exact unescapeNewlinesLoop_append_backslash s false h
  · rw [unescape_tabs_newlines_eq_loop, unescape_tabs_newlines_eq_loop]
    exact unescapeTabsNewlinesLoop_append_backslash s false h

/-- Witness for C6 at the concrete input abc. -/
theorem unescape_trailing_backslash_dropped_witness :
    unescape_newlines (['a', 'b', 'c'] ++ ['\\']) = unescape_newlines ['a', 'b', 'c'] :=
  (unescape_trailing_backslash_dropped ['a', 'b', 'c'] (by decide)).1

/-- C9: escaping is the identity on strings containing no character that
needs escaping, and both escape and unescape are the identity on the empty
string. -/
theorem escape_identity_when_no_specials (s t : List Char)
    (hs : ∀ c ∈ s, c ≠ '\\' ∧ c ≠ '\n' ∧ c ≠ '\r')
    (ht : ∀ c ∈ t, c ≠ '\\' ∧ c ≠ '\n' ∧ c ≠ '\r' ∧ c ≠ '\t') :
    escape_newlines s = s ∧ escape_tabs_newlines t = t ∧
    escape_newlines [] = [] ∧ unescape_newlines [] = [] ∧
    escape_tabs_newlines [] = [] ∧ unescape_tabs_newlines [] = [] := by
  refine ⟨?_, ?_, by decide, by decide, by decide, by decide⟩
  · induction s with
    | nil => decide
    | cons c s ih =>
      obtain ⟨h1, h2, h3⟩ := hs c (List.mem_cons_self c s)
      rw [escape_newlines_cons]
      rw [ih fun x hx => hs x (List.mem_cons_of_mem c hx)]
      simp [escCharNL, h1, h2, h3]
  · induction t with
    | nil => decide
    | cons c t ih =>
      obtain ⟨h1, h2, h3, h4⟩ := ht c (List.mem_cons_self c t)
      rw [escape_tabs_newlines_cons]
      rw [ih fun x hx => ht x (List.mem_cons_of_mem c hx)]
      simp [escCharTNL, h1, h2, h3, h4]

/-- Witness for C9 at concrete special-free inputs. -/
theorem escape_identity_when_no_specials_witness :
    escape_newlines ['h', 'i'] = ['h', 'i'] ∧
    unescape_newlines [] = [] :=
  ⟨(escape_identity_when_no_specials ['h', 'i'] ['o', 'k']
      (by decide) (by decide)).1,
   (escape_identity_when_no_specials ['h', 'i'] ['o', 'k']
      (by decide) (by decide)).2.2.2.1⟩

theorem chrList_ok (l : List Nat) (h : ∀ x ∈ l, x ≤ 0x10FFFF) :
    chrList l = .ok l := by
  induction l with
  | nil => rfl
  | cons n ns ih =>
    have hn : n ≤ 0x10FFFF := h n (List.mem_cons_self n ns)
    have hns := ih fun x hx => h x (List.mem_cons_of_mem n hx)
    simp [chrList, pyChr, hn, hns, Except.bind, bind]

theorem specExpansion_length (src : List (Nat ⊕ String)) :
    (specExpansion src).length = declLenSum src := by
  induction src with
  | nil => rfl
  | cons d rest ih =>
    cases d with
    | inl n => simp [specExpansion, declLenSum, declLen, ih, Nat.add_comm]
    | inr s =>
      cases hp : parseHexList (pySplitHyphen s.data) with
      | none => simp [specExpansion, declLenSum, declLen, hp, ih]
      | some vals =>
        match vals with
        | [] => simp [specExpansion, declLenSum, declLen, hp, ih]
        | [a] => simp [specExpansion, declLenSum, declLen, hp, ih]
        | [a, b] => simp [specExpansion, declLenSum, declLen, hp, ih]
        | a :: b :: x :: xs => simp [specExpansion, declLenSum, declLen, hp, ih]

/-- On any declaration list whose entries are all valid, the code's expansion
succeeds and produces exactly the spec's Expanded Category String. -/
theorem unicode_def_src_to_str_ok (src : List (Nat ⊕ String))
    (h : ∀ d ∈ src, declValid d = true) :
    _unicode_def_src_to_str src = .ok (specExpansion src) := by
  induction src with
  | nil => rfl
  | cons d rest ih =>
    have hrest := ih fun x hx => h x (List.mem_cons_of_mem d hx)
    have hd := h d (List.mem_cons_self d rest)
    cases d with
    | inl n =>
      have hn : n ≤ 0x10FFFF := by simpa [declValid] using hd
      simp [_unicode_def_src_to_str, pyChr, hn, hrest, specExpansion,
        Except.bind, bind]
    | inr s =>
      cases hp : parseHexList (pySplitHyphen s.data) with
      | none => simp [declValid, hp] at hd
      | some vals =>
        match vals with
        | [] => simp [declValid, hp] at hd
        | [a] => simp [declValid, hp] at hd
        | a :: b :: x :: xs => simp [declValid, hp] at hd
        | [a, b] =>
          simp [declValid, hp] at hd
          obtain ⟨hab, hb⟩ := hd
          have hcs : chrList (List.range' a (b + 1 - a)) =
              .ok (List.range' a (b + 1 - a)) := by
            apply chrList_ok
            intro x hx
            have := List.mem_range'_1.mp hx
            omega
          simp [_unicode_def_src_to_str, hp, hcs, hrest, specExpansion,
            Except.bind, bind]

/-- Every declaration of every category in the embedded table is valid:
each range reads as two hexadecimal endpoints `A ≤ B` and every code point is
in `chr`'s range. -/
theorem table_all_valid :
    ∀ kv ∈ _UNICODE_CATEGORY_SRC, ∀ d ∈ kv.2, declValid d = true := by
  have h : (_UNICODE_CATEGORY_SRC.all fun kv => kv.2.all declValid) = true := by
    decide
  intro kv hkv d hd
  exact List.all_eq_true.mp (List.all_eq_true.mp h kv hkv) d hd

theorem lookup_eq_none_of_not_mem_keys {β : Type} (t : List (String × β))
    (k : String) (h : k ∉ t.map Prod.fst) : t.lookup k = none := by
  induction t with
  | nil => rfl
  | cons p t ih =>
    simp only [List.map_cons, List.mem_cons] at h
    push_neg at h
    obtain ⟨h1, h2⟩ := h
    have hk : (k == p.1) = false := beq_eq_false_iff_ne.mpr h1
    simp [List.lookup, hk, ih h2]

theorem mem_of_lookup_eq_some {β : Type} {t : List (String × β)} {k : String}
    {v : β} (h : t.lookup k = some v) : ∃ kv ∈ t, kv.2 = v := by
  induction t with
  | nil => simp [List.lookup] at h
  | cons p t ih =>
    cases hk : k == p.1 with
    | true =>
      simp [List.lookup, hk] at h
      exact ⟨p, List.mem_cons_self p t, h⟩
    | false =>
      simp [List.lookup, hk] at h
      obtain ⟨kv, hkv, he⟩ := ih h
      exact ⟨kv, List.mem_cons_of_mem p hkv, he⟩

/-- C3: a category name absent from the table is a `KeyError` surfaced to the
caller; `get_unicode_characters` never returns a string for it. -/
theorem get_unicode_characters_unknown_category (name : String)
    (h : name ∉ _UNICODE_CATEGORY_SRC.map Prod.fst) :
    get_unicode_characters name = .error .keyError ∧
    ∀ l, get_unicode_characters name ≠ .ok l := by
  have hl := lookup_eq_none_of_not_mem_keys _UNICODE_CATEGORY_SRC name h
  refine ⟨?_, ?_⟩
  · simp [get_unicode_characters, hl]
  · intro l hc
    simp [get_unicode_characters, hl] at hc

/-- Witness for C3 at the concrete name NotACategory. -/
theorem get_unicode_characters_unknown_category_witness :
    get_unicode_characters "NotACategory" = .error .keyError :=
  (get_unicode_characters_unknown_category "NotACategory" (by decide)).1

/-- C2 counterexample: on the inverted range 0010-0005 the expander does not
fail; `range(first, last + 1)` is empty when `first > last`, so the result is
the empty string, returned as a normal value. -/
theorem inverted_range_expands_to_empty :
    _unicode_def_src_to_str [Sum.inr "0010-0005"] = .ok [] := by rfl

/-- C2 (amended): the expander fails with a `ValueError` when a range string
does not read as exactly two hexadecimal integers separated by hyphens, and
when any produced code point lies beyond `chr`'s range `0..0x10FFFF`; but an
inverted range (first endpoint greater than the second) does not fail: it
contributes no characters, so the inverted-range input 0010-0005 yields the
empty string. -/
theorem unicode_def_src_to_str_failure_modes (s : String) (a b : Nat)
    (hp : parseHexList (pySplitHyphen s.data) = some [a, b]) (hba : b < a) :
    _unicode_def_src_to_str [Sum.inr s] = .ok [] ∧
    _unicode_def_src_to_str [Sum.inr "0010"] = .error .valueError ∧
    _unicode_def_src_to_str [Sum.inr "0010-GG"] = .error .valueError ∧
    _unicode_def_src_to_str [Sum.inr "10-20-30"] = .error .valueError ∧
    _unicode_def_src_to_str [Sum.inl 0x110000] = .error .valueError ∧
    _unicode_def_src_to_str [Sum.inr "10FFFF-110000"] = .error .valueError := by
  refine ⟨?_, by rfl, by rfl, by rfl, by rfl, by rfl⟩
  have hz : b + 1 - a = 0 := by omega
  simp [_unicode_def_src_to_str, hp, hz, chrList, Except.bind, bind]

/-- Witness for C2 at the concrete inverted range 0010-0005. -/
theorem unicode_def_src_to_str_failure_modes_witness :
    _unicode_def_src_to_str [Sum.inr "0010"] = .error .valueError :=
  (unicode_def_src_to_str_failure_modes "0010-0005" 0x10 0x5 (by rfl)
    (by decide)).2.1

theorem table_valid_of_lookup {k : String} {v : List (Nat ⊕ String)}
    (h : _UNICODE_CATEGORY_SRC.lookup k = some v) :
    ∀ d ∈ v, declValid d = true := by
  obtain ⟨kv, hkv, he⟩ := mem_of_lookup_eq_some h
  subst he
  exact table_all_valid kv hkv

theorem get_unicode_characters_ok {k : String} {v : List (Nat ⊕ String)}
    (h : _UNICODE_CATEGORY_SRC.lookup k = some v) :
    get_unicode_characters k = .ok (specExpansion v) := by
  simp only [get_unicode_characters, h]
  exact unicode_def_src_to_str_ok v (table_valid_of_lookup h)

/-- C4: on a declaration list whose entries are all valid, the expander
returns exactly the spec's Expanded Category String — the in-order
concatenation of single code points and ascending ranges — whose length is
the sum of 1 per single code point and `B − A + 1` per range; concretely,
0041-0043 expands to ABC, `0x61` to a, and the Alphabetic category expands to
118240 characters, more than 100000. -/
theorem unicode_def_src_to_str_spec (src : List (Nat ⊕ String))
    (h : ∀ d ∈ src, declValid d = true) :
    (_unicode_def_src_to_str src = .ok (specExpansion src) ∧
      (specExpansion src).length = declLenSum src) ∧
    _unicode_def_src_to_str [Sum.inr "0041-0043"] = .ok [0x41, 0x42, 0x43] ∧
    _unicode_def_src_to_str [Sum.inl 0x61] = .ok [0x61] ∧
    ∃ l, get_unicode_characters "Alphabetic" = .ok l ∧ l.length = 118240 ∧
      100000 < l.length := by
  refine ⟨⟨unicode_def_src_to_str_ok src h, specExpansion_length src⟩,
    by rfl, by rfl, ?_⟩
  have hA : _UNICODE_CATEGORY_SRC.lookup "Alphabetic" = some srcAlphabetic := by
    rfl
  refine ⟨specExpansion srcAlphabetic, get_unicode_characters_ok hA, ?_, ?_⟩
  · rw [specExpansion_length]
    decide
  · rw [specExpansion_length]
    decide

/-- Witness for C4 at the concrete declaration list containing 0041-0043. -/
theorem unicode_def_src_to_str_spec_witness :
    _unicode_def_src_to_str [Sum.inr "0041-0043"] =
      .ok (specExpansion [Sum.inr "0041-0043"]) ∧
    (specExpansion [Sum.inr "0041-0043"]).length =
      declLenSum [Sum.inr "0041-0043"] :=
  (unicode_def_src_to_str_spec [Sum.inr "0041-0043"]
    (List.all_eq_true.mp (by decide))).1

/-- C7: the ASCII category expands to a string of length exactly 128, and the
White_Space category expands to a string containing the space character 0x20
but not the letter A (0x41). -/
theorem get_unicode_characters_ascii_whitespace :
    ∃ a, get_unicode_characters "ASCII" = .ok a ∧ a.length = 128 ∧
      ∃ w, get_unicode_characters "White_Space" = .ok w ∧
        0x20 ∈ w ∧ 0x41 ∉ w := by
  have hA : _UNICODE_CATEGORY_SRC.lookup "ASCII" = some srcASCII := by rfl
  have hW : _UNICODE_CATEGORY_SRC.lookup "White_Space" = some srcWhite_Space := by
    rfl
  exact ⟨specExpansion srcASCII, get_unicode_characters_ok hA, by decide,
    specExpansion srcWhite_Space, get_unicode_characters_ok hW, by decide,
    by decide⟩

/-- C10: the Any category is the single range 0000-10FFFF, so its expansion
succeeds with exactly one character per code point from 0 through 0x10FFFF
inclusive — length 1114112 — including the surrogate code points 0xD800
through 0xDFFF, which the expansion does not reject. -/
theorem get_unicode_characters_any_full_range :
    ∃ l, get_unicode_characters "Any" = .ok l ∧ l.length = 0x110000 ∧
      (∀ n, n ∈ l ↔ n < 0x110000) ∧ 0xD800 ∈ l ∧ 0xDFFF ∈ l := by
  have hA : _UNICODE_CATEGORY_SRC.lookup "Any" = some srcAny := by rfl
  have hspec : specExpansion srcAny = List.range' 0 0x110000 := by
    have h1 : specExpansion srcAny = List.range' 0 (0x10FFFF + 1 - 0) ++ [] := by
      rfl
    rw [h1, List.append_nil]
  have hiff : ∀ n, n ∈ specExpansion srcAny ↔ n < 0x110000 := by
    intro n
    rw [hspec, List.mem_range'_1]
    omega
  refine ⟨specExpansion srcAny, get_unicode_characters_ok hA, ?_, hiff,
    (hiff 0xD800).mpr (by norm_num), (hiff 0xDFFF).mpr (by norm_num)⟩
  rw [hspec]
  simp

theorem buildCategoryStrings_ok (t : List (String × List (Nat ⊕ String)))
    (h : ∀ kv ∈ t, ∀ d ∈ kv.2, declValid d = true) :
    buildCategoryStrings t = .ok (t.map fun kv => (kv.1, specExpansion kv.2)) := by
  induction t with
  | nil => rfl
  | cons kv t ih =>
    have h1 := h kv (List.mem_cons_self kv t)
    have h2 := ih fun x hx => h x (List.mem_cons_of_mem kv hx)
    simp [buildCategoryStrings, unicode_def_src_to_str_ok kv.2 h1, h2,
      Except.bind, bind]

theorem lookup_map_specExpansion (t : List (String × List (Nat ⊕ String)))
    (k : String) :
    (t.map fun kv => (kv.1, specExpansion kv.2)).lookup k =
      (t.lookup k).map specExpansion := by
  induction t with
  | nil => rfl
  | cons p t ih =>
    cases hk : k == p.1 with
    | true => simp [List.lookup, hk]
    | false => simp [List.lookup, hk, ih]

/-- C8: the batch operation agrees with single lookup — it succeeds, its key
list is exactly the table's key list, and for every key of the table its
entry equals what `get_unicode_characters` returns for that key. -/
theorem get_unicode_category_strings_agrees_with_single :
    get_unicode_category_strings = .ok categoryStringsSpec ∧
    categoryStringsSpec.map Prod.fst = _UNICODE_CATEGORY_SRC.map Prod.fst ∧
    ∀ k v, _UNICODE_CATEGORY_SRC.lookup k = some v →
      categoryStringsSpec.lookup k = some (specExpansion v) ∧
      get_unicode_characters k = .ok (specExpansion v) := by
  refine ⟨buildCategoryStrings_ok _UNICODE_CATEGORY_SRC table_all_valid, ?_, ?_⟩
  · simp [categoryStringsSpec]
  · intro k v hv
    refine ⟨?_, get_unicode_characters_ok hv⟩
    unfold categoryStringsSpec
    rw [lookup_map_specExpansion, hv]
    rfl

/-- Witness for C8 at the concrete key ASCII. -/
theorem get_unicode_category_strings_agrees_with_single_witness :
    categoryStringsSpec.lookup "ASCII" = some (specExpansion srcASCII) ∧
    get_unicode_characters "ASCII" = .ok (specExpansion srcASCII) :=
  get_unicode_category_strings_agrees_with_single.2.2 "ASCII" srcASCII (by rfl)
